import Mathlib

set_option maxRecDepth 100000

/-!
Verification development for the marketing-plan generation pipeline.

The definitions below are a shallow embedding of the Python sources:
  * `src/mcp-server/agents/llm_client.py`            (provider gateway)
  * `src/mcp-server/agents/marketing/fast_marketing_orchestrator.py`
  * `src/mcp-server/agents/marketing/marketing_plan_orchestrator.py`
  * `src/mcp-server/agents/marketing/evaluator_agent.py`

Python JSON values are modelled by the inductive type `Json`; Python `None`
is `Json.null`.  Code that can raise a Python exception is modelled in the
`Except PyErr` monad; code that cannot raise is a plain function.  Network
calls (`requests.post` + response decoding) are abstracted into oracle
functions supplied as parameters, so the surrounding control flow can be
analysed for every possible network outcome.
-/

/-- JSON / decoded-Python-value universe.  Numbers are modelled as rationals
(covering every decimal literal `json.loads` can produce; the non-standard
`NaN`/`Infinity` extensions accepted by Python are outside the model). -/
inductive Json where
  | null : Json
  | bool (b : Bool) : Json
  | num (q : ℚ) : Json
  | str (s : String) : Json
  | arr (elems : List Json) : Json
  | obj (members : List (String × Json)) : Json

/-- The opening-brace character `\x7b`. -/
def braceOpen : Char := '\x7b'

/-- The closing-brace character `\x7d`. -/
def braceClose : Char := '\x7d'

/-- The empty JSON object / empty Python dict. -/
def jEmptyObj : Json := Json.obj []

/-- First-match association lookup.  Objects built by the embedding keep
keys unique (inserts overwrite in place, as Python dicts do), so first
match equals Python dict lookup. -/
def jFind : List (String × Json) → String → Option Json
  | [], _ => none
  | (k, v) :: rest, key => if k = key then some v else jFind rest key

/-- Dict-style insert: overwrite an existing key in place, else append
(Python dict assignment semantics, insertion order preserved). -/
def jInsert : List (String × Json) → String → Json → List (String × Json)
  | [], key, val => [(key, val)]
  | (k, v) :: rest, key, val =>
    if k = key then (k, val) :: rest else (k, v) :: jInsert rest key val

/-- Lookup a key on an arbitrary value: `none` when the value is not an
object or the key is absent. -/
def jLookup : Json → String → Option Json
  | Json.obj members, key => jFind members key
  | _, _ => none

/-- Python truthiness of a decoded JSON value. -/
def jTruthy : Json → Bool
  | Json.null => false
  | Json.bool b => b
  | Json.num q => !(decide (q = 0))
  | Json.str s => !(s == "")
  | Json.arr [] => false
  | Json.arr (_ :: _) => true
  | Json.obj [] => false
  | Json.obj (_ :: _) => true

/-- Is the value a JSON object (Python dict)? -/
def jIsObj : Json → Bool
  | Json.obj _ => true
  | _ => false

/-! ### A model of `json.loads`

Fuel-indexed recursive-descent parser for standard JSON (RFC 8259 as
implemented by Python's `json` module in strict mode): objects, arrays,
strings with escapes, numbers with optional fraction/exponent, `true`,
`false`, `null`; raw control characters inside strings are rejected;
trailing commas are rejected; leading/trailing JSON whitespace is allowed
and anything after the first value is an error ("Extra data"). -/

/-- JSON whitespace (the only whitespace `json.loads` skips). -/
def isJsonWs (c : Char) : Bool :=
  c = ' ' ∨ c = '\t' ∨ c = '\n' ∨ c = '\r'

/-- Drop leading JSON whitespace. -/
def skipWs : List Char → List Char
  | [] => []
  | c :: cs => if isJsonWs c then skipWs cs else c :: cs

/-- Consume an expected literal tail (e.g. `rue` after `t`). -/
def expectLit : List Char → List Char → Option (List Char)
  | [], rest => some rest
  | l :: ls, c :: cs => if c = l then expectLit ls cs else none
  | _ :: _, [] => none

/-- Decimal digits to a natural number. -/
def digitsToNat (ds : List Char) : Nat :=
  ds.foldl (fun acc c => acc * 10 + (c.toNat - 48)) 0

/-- Hexadecimal digit value. -/
def hexVal (c : Char) : Option Nat :=
  if '0' ≤ c ∧ c ≤ '9' then some (c.toNat - 48)
  else if 'a' ≤ c ∧ c ≤ 'f' then some (c.toNat - 87)
  else if 'A' ≤ c ∧ c ≤ 'F' then some (c.toNat - 55)
  else none

/-- Parse exactly four hex digits to their value. -/
def parseHex4 : List Char → Option (Nat × List Char)
  | a :: b :: c :: d :: rest => do
    let va ← hexVal a
    let vb ← hexVal b
    let vc ← hexVal c
    let vd ← hexVal d
    some (((va * 16 + vb) * 16 + vc) * 16 + vd, rest)
  | _ => none

/-- Parse a JSON number starting at the given characters (grammar
`-?(0|[1-9][0-9]*)(\.[0-9]+)?([eE][-+]?[0-9]+)?`), returning its rational
value and the remaining input. -/
def parseNumber (cs : List Char) : Option (Json × List Char) := do
  let (neg, cs) := match cs with
    | c :: rest => if c = '-' then (true, rest) else (false, cs)
    | [] => (false, cs)
  let intDigits := cs.takeWhile Char.isDigit
  let cs := cs.drop intDigits.length
  if intDigits = [] then none else
  if intDigits.length > 1 ∧ intDigits.headD '0' = '0' then none else do
  let (fracDigits, cs) ← match cs with
    | c :: rest =>
      if c = '.' then
        let fd := rest.takeWhile Char.isDigit
        if fd = [] then none else some (fd, rest.drop fd.length)
      else some ([], cs)
    | [] => some (([] : List Char), cs)
  let (expVal, cs) ← match cs with
    | c :: rest =>
      if c = 'e' ∨ c = 'E' then
        let (esign, rest) := match rest with
          | d :: rest2 =>
            if d = '+' then ((1 : ℤ), rest2)
            else if d = '-' then ((-1 : ℤ), rest2)
            else ((1 : ℤ), rest)
          | [] => ((1 : ℤ), rest)
        let ed := rest.takeWhile Char.isDigit
        if ed = [] then none
        else some (esign * (digitsToNat ed : ℤ), rest.drop ed.length)
      else some ((0 : ℤ), cs)
    | [] => some ((0 : ℤ), cs)
  let mantissa : ℤ :=
    (if neg then -1 else 1) *
      ((digitsToNat intDigits) * 10 ^ fracDigits.length + digitsToNat fracDigits)
  -- The numeric value is mantissa × 10^(expVal − #fracDigits); it is built
  -- with `mkRat` over integer arithmetic (a single normalisation).
  let e10 : ℤ := expVal - fracDigits.length
  let q : ℚ :=
    if 0 ≤ e10 then mkRat (mantissa * 10 ^ e10.toNat) 1
    else mkRat mantissa (10 ^ (-e10).toNat)
  some (Json.num q, cs)

/-- Parse the body of a JSON string after the opening quote, handling the
escape sequences of RFC 8259 and rejecting raw control characters
(`strict=True`).  `\uXXXX` surrogate pairs are combined; lone surrogates
(which Python would keep) are not representable as `Char` and fall outside
the model. -/
def parseStringBody : Nat → List Char → Option (String × List Char)
  | 0, _ => none
  | _, [] => none
  | fuel + 1, c :: cs =>
    if c = '\"' then some ("", cs)
    else if c.toNat < 32 then none
    else if c = '\\' then
      match cs with
      | [] => none
      | e :: cs2 =>
        let simple : Option Char :=
          if e = '\"' then some '\"'
          else if e = '\\' then some '\\'
          else if e = '/' then some '/'
          else if e = 'b' then some (Char.ofNat 8)
          else if e = 'f' then some (Char.ofNat 12)
          else if e = 'n' then some '\n'
          else if e = 'r' then some '\r'
          else if e = 't' then some '\t'
          else none
        match simple with
        | some ch => do
          let (s, rest) ← parseStringBody fuel cs2
          some (String.mk (ch :: s.toList), rest)
        | none =>
          if e = 'u' then do
            let (n, cs3) ← parseHex4 cs2
            if 0xD800 ≤ n ∧ n ≤ 0xDBFF then
              match cs3 with
              | u1 :: u2 :: cs4 =>
                if u1 = '\\' ∧ u2 = 'u' then do
                  let (lo, cs5) ← parseHex4 cs4
                  if 0xDC00 ≤ lo ∧ lo ≤ 0xDFFF then do
                    let code := 0x10000 + (n - 0xD800) * 0x400 + (lo - 0xDC00)
                    let (s, rest) ← parseStringBody fuel cs5
                    some (String.mk (Char.ofNat code :: s.toList), rest)
                  else none
                else none
              | _ => none
            else if 0xDC00 ≤ n ∧ n ≤ 0xDFFF then none
            else do
              let (s, rest) ← parseStringBody fuel cs3
              some (String.mk (Char.ofNat n :: s.toList), rest)
          else none
    else do
      let (s, rest) ← parseStringBody fuel cs
      some (String.mk (c :: s.toList), rest)

/-- Parsing job for the single fuel-indexed parser core: a value position,
the member list of an object (after at least one member is required), or
the element list of an array. -/
inductive ParseJob where
  | value (cs : List Char) : ParseJob
  | members (cs : List Char) (acc : List (String × Json)) : ParseJob
  | elems (cs : List Char) (acc : List Json) : ParseJob

/-- Recursive-descent core of the `json.loads` model, structurally
recursive on fuel so that concrete runs reduce definitionally. -/
def parseCore : Nat → ParseJob → Option (Json × List Char)
  | 0, _ => none
  | fuel + 1, ParseJob.value cs =>
    match skipWs cs with
    | [] => none
    | c :: rest =>
      if c = braceOpen then
        match skipWs rest with
        | [] => none
        | c2 :: rest2 =>
          if c2 = braceClose then some (Json.obj [], rest2)
          else parseCore fuel (ParseJob.members (c2 :: rest2) [])
      else if c = '[' then
        match skipWs rest with
        | [] => none
        | c2 :: rest2 =>
          if c2 = ']' then some (Json.arr [], rest2)
          else parseCore fuel (ParseJob.elems (c2 :: rest2) [])
      else if c = '\"' then
        match parseStringBody (rest.length + 1) rest with
        | some (s, r) => some (Json.str s, r)
        | none => none
      else if c = 't' then
        match expectLit "rue".toList rest with
        | some r => some (Json.bool true, r)
        | none => none
      else if c = 'f' then
        match expectLit "alse".toList rest with
        | some r => some (Json.bool false, r)
        | none => none
      else if c = 'n' then
        match expectLit "ull".toList rest with
        | some r => some (Json.null, r)
        | none => none
      else if c = '-' ∨ c.isDigit then parseNumber (c :: rest)
      else none
  | fuel + 1, ParseJob.members cs acc =>
    (match skipWs cs with
    | [] => none
    | c :: rest =>
      if c = '\"' then
        match parseStringBody (rest.length + 1) rest with
        | none => none
        | some (key, r1) =>
          match skipWs r1 with
          | [] => none
          | c2 :: r2 =>
            if c2 = ':' then
              match parseCore fuel (ParseJob.value r2) with
              | none => none
              | some (v, r3) =>
                match skipWs r3 with
                | [] => none
                | c3 :: r4 =>
                  if c3 = ',' then
                    parseCore fuel (ParseJob.members r4 (jInsert acc key v))
                  else if c3 = braceClose then
                    some (Json.obj (jInsert acc key v), r4)
                  else none
            else none
      else none)
  | fuel + 1, ParseJob.elems cs acc =>
    (match parseCore fuel (ParseJob.value cs) with
    | none => none
    | some (v, r1) =>
      match skipWs r1 with
      | [] => none
      | c :: r2 =>
        if c = ',' then parseCore fuel (ParseJob.elems r2 (acc ++ [v]))
        else if c = ']' then some (Json.arr (acc ++ [v]), r2)
        else none)

/-- Model of Python `json.loads` on a text input: parse exactly one JSON
value surrounded by optional JSON whitespace; `none` models a raised
`json.JSONDecodeError`. -/
def jsonLoads (s : String) : Option Json :=
  match parseCore (s.toList.length + 1) (ParseJob.value s.toList) with
  | some (v, rest) => if skipWs rest = [] then some v else none
  | none => none

/-! ### The Structured-Response Extractors

`FastMarketingOrchestrator._parse_json` and
`EvaluatorAgent._parse_json_response`, modelled as total functions (both
catch every parse error internally). -/

/-- ASCII whitespace stripped by Python's `str.strip()` / matched by the
regex class `\s` (unicode spaces are outside the model). -/
def pyIsSpace (c : Char) : Bool :=
  c = ' ' ∨ c = '\t' ∨ c = '\n' ∨ c = '\r' ∨ c = '\x0b' ∨ c = '\x0c'

/-- `str.strip()` on a character list. -/
def pyStripList (cs : List Char) : List Char :=
  ((cs.dropWhile pyIsSpace).reverse.dropWhile pyIsSpace).reverse

/-- Model of Python `str.strip()` (no arguments). -/
def pyStrip (s : String) : String :=
  String.mk (pyStripList s.toList)

/-- Index of the last closing brace, modelling `text.rfind(brace)`
(`none` for `-1`). -/
def lastCloseIdx (cs : List Char) : Option Nat :=
  match cs.reverse.findIdx? (· = braceClose) with
  | some i => some (cs.length - 1 - i)
  | none => none

/-- Model of `re.sub(r',(\s*[}\]])', r'\1', s)`: delete every comma that is
followed by optional whitespace and a closing brace or bracket.  (The
regex replacement keeps the whitespace and closer and resumes scanning
after them; since a match can only start at a comma, deleting the comma
and rescanning is equivalent.) -/
def fixTrailingCommas : List Char → List Char
  | [] => []
  | c :: cs =>
    if c = ',' then
      match cs.dropWhile pyIsSpace with
      | d :: _ =>
        if d = braceClose ∨ d = ']' then fixTrailingCommas cs
        else c :: fixTrailingCommas cs
      | [] => c :: fixTrailingCommas cs
    else c :: fixTrailingCommas cs

/-- Model of `re.sub(r'\\(?!")', r'', s)`: delete every backslash not
immediately followed by a double quote. -/
def dropBadBackslashes : List Char → List Char
  | [] => []
  | '\\' :: '\"' :: cs => '\\' :: '\"' :: dropBadBackslashes cs
  | '\\' :: cs => dropBadBackslashes cs
  | c :: cs => c :: dropBadBackslashes cs

/-- Model of the control-character filter
`[char for char in s if ord(char) >= 32 or char in '\n\r\t']`. -/
def stripCtrlChars (cs : List Char) : List Char :=
  cs.filter (fun c => decide (32 ≤ c.toNat) || (c = '\n' ∨ c = '\r' ∨ c = '\t'))

/-- Model of `FastMarketingOrchestrator._parse_json` (fast orchestrator's
Extractor).  The Python outer `try`-handler is unreachable because every
step below is total, so it is not represented.  Attempts in order: direct
parse; substring between the first opening and last closing brace;
conservative repairs (trailing commas, spurious backslashes, control
characters) of that substring; finally the raw-text wrapper object. -/
def fastParseJson (text : String) : Json :=
  if text = "" ∨ pyStrip text = "" then Json.obj [("error", Json.str "Empty response")]
  else
    match jsonLoads text with
    | some v => v
    | none =>
      let cs := text.toList
      match cs.findIdx? (· = braceOpen), lastCloseIdx cs with
      | some start, some last =>
        if start ≤ last then
          let jsonStr := pyStrip (String.mk ((cs.drop start).take (last + 1 - start)))
          match jsonLoads jsonStr with
          | some v => v
          | none =>
            let repaired :=
              stripCtrlChars (dropBadBackslashes (fixTrailingCommas jsonStr.toList))
            match jsonLoads (String.mk repaired) with
            | some v => v
            | none => Json.obj [("raw_content", Json.str text)]
        else Json.obj [("raw_content", Json.str text)]
      | _, _ => Json.obj [("raw_content", Json.str text)]

/-- Does one list start with another? -/
def listStartsWith : List Char → List Char → Bool
  | [], _ => true
  | _ :: _, [] => false
  | p :: ps, c :: cs => p = c && listStartsWith ps cs

/-- The preprocessing done by `EvaluatorAgent._parse_json_response` before
`json.loads`: strip, remove a leading code-fence marker (with optional
`json` language tag), remove a trailing code-fence marker, strip again. -/
def fenceProcess (response : String) : String :=
  let cs := pyStripList response.toList
  let fence := '`' :: '`' :: ['`']
  let cs :=
    if listStartsWith (fence ++ ['j', 's', 'o', 'n']) cs then cs.drop 7
    else if listStartsWith fence cs then cs.drop 3
    else cs
  let cs :=
    if listStartsWith fence cs.reverse then cs.take (cs.length - 3)
    else cs
  String.mk (pyStripList cs)

/-- Model of `EvaluatorAgent._parse_json_response`: parse the preprocessed
response, returning the call-site fallback when `json.loads` fails (only
`json.JSONDecodeError` can be raised, and it is caught). -/
def parseJsonResponse (response : String) (fallback : Json) : Json :=
  match jsonLoads (fenceProcess response) with
  | some v => v
  | none => fallback

/-! ### Python-side evaluation helpers -/

/-- Python exceptions that the orchestration code can raise. -/
inductive PyErr where
  | attrError : PyErr
  | typeError : PyErr
  | zeroDiv : PyErr

/-- Model of Python `d.get(key, default)`: `AttributeError` when the
receiver is not a dict. -/
def pyGet (d : Json) (k : String) (dflt : Json) : Except PyErr Json :=
  match d with
  | Json.obj members => Except.ok ((jFind members k).getD dflt)
  | _ => Except.error PyErr.attrError

/-- Model of Python `str(value)` as used inside f-strings.  Only the
scalar cases matter downstream; container rendering is an abbreviated
stand-in for Python's `repr`-style output (the result is only ever
embedded opaquely inside larger strings). -/
def pyStr : Json → String
  | Json.null => "None"
  | Json.bool true => "True"
  | Json.bool false => "False"
  | Json.num q => toString q.num ++ (if q.den = 1 then "" else "/" ++ toString q.den)
  | Json.str s => s
  | Json.arr _ => "[...]"
  | Json.obj _ => "\x7b...\x7d"

/-- Collect the elements of a joined list, requiring every element to be
a string (`TypeError` otherwise, as Python `str.join` raises). -/
def pyJoinParts : List Json → Except PyErr (List String)
  | [] => Except.ok []
  | Json.str s :: rest => do
    let parts ← pyJoinParts rest
    Except.ok (s :: parts)
  | _ :: _ => Except.error PyErr.typeError

/-- Model of Python `sep.join(v)` on a decoded value: joins a list of
strings, the characters of a string, or the keys of a dict; anything else
(or a non-string element) raises `TypeError`. -/
def pyJoin (sep : String) (v : Json) : Except PyErr String :=
  match v with
  | Json.str s => Except.ok (String.intercalate sep (s.toList.map (fun c => String.mk [c])))
  | Json.arr elems => do
    let parts ← pyJoinParts elems
    Except.ok (String.intercalate sep parts)
  | Json.obj members => Except.ok (String.intercalate sep (members.map (·.1)))
  | _ => Except.error PyErr.typeError

/-- Model of Python list slicing `v[:n]` followed by use as a sequence:
lists and strings slice; other values raise `TypeError`. -/
def pySlice (v : Json) (n : Nat) : Except PyErr Json :=
  match v with
  | Json.arr elems => Except.ok (Json.arr (elems.take n))
  | Json.str s => Except.ok (Json.str (String.mk (s.toList.take n)))
  | _ => Except.error PyErr.typeError

/-! ### The Provider Gateway (`llm_client.py`)

Network interactions (`requests.post`, status checks, response decoding)
are abstracted into oracle functions in `LLMNet`: an `Except.error`
models any raised exception (connection error, non-2xx status, timeout,
malformed response body), carrying `str(e)`. -/

/-- The environment variables read by `LLMClient.__init__`
(`none` models an unset variable). -/
structure LLMEnv where
  llmProvider : Option String
  llmModel : Option String
  ollamaBaseUrl : Option String
  groqApiKey : Option String
  googleApiKey : Option String
  openrouterApiKey : Option String

/-- The state of a constructed `LLMClient`. -/
structure LLMClient where
  provider : String
  model : String
  ollamaBaseUrl : String
  groqApiKey : String
  googleApiKey : String
  openrouterApiKey : String
deriving DecidableEq

/-- Model of Python `str.lower()` (ASCII case folding; non-ASCII case
mapping is outside the model). -/
def pyLower (s : String) : String :=
  String.mk (s.toList.map Char.toLower)

/-- Model of `LLMClient.__init__`: reads configuration with defaults and
lower-cases the provider tag.  It is a total function — the constructor
can only print, never raise. -/
def LLMClient.ofEnv (env : LLMEnv) : LLMClient :=
  ⟨pyLower (env.llmProvider.getD "ollama"),
   env.llmModel.getD "llama3.2",
   env.ollamaBaseUrl.getD "http://host.docker.internal:11434",
   env.groqApiKey.getD "",
   env.googleApiKey.getD "",
   env.openrouterApiKey.getD ""⟩

/-- Model of `LLMClient._validate_config`: the console warnings printed at
construction.  No branch raises. -/
def validateConfigWarnings (c : LLMClient) : List String :=
  if c.provider = "groq" ∧ c.groqApiKey = "" then
    ["⚠️  WARNING: GROQ_API_KEY not set, will fail on first request"]
  else if (c.provider = "google" ∨ c.provider = "gemini") ∧ c.googleApiKey = "" then
    ["⚠️  WARNING: GOOGLE_API_KEY not set, will fail on first request"]
  else if c.provider = "openrouter" ∧ c.openrouterApiKey = "" then
    ["⚠️  WARNING: OPENROUTER_API_KEY not set, will fail on first request"]
  else []

/-- Role-tagged chat messages. -/
abbrev ChatMessages := List (String × String)

/-- Network oracles: the outcome of one HTTP round trip per backend, as a
function of the request arguments. -/
structure LLMNet where
  ollama : ChatMessages → ℚ → Except String String
  groq : ChatMessages → ℚ → Except String String
  google : ChatMessages → ℚ → Except String String
  openrouter : ChatMessages → ℚ → Except String String

/-- Model of `LLMClient._call_ollama`. -/
def callOllama (net : LLMNet) (m : ChatMessages) (t : ℚ) : Except String String :=
  net.ollama m t

/-- Model of `LLMClient._call_groq`: raises `ValueError` before any network
activity when the key is absent. -/
def callGroq (c : LLMClient) (net : LLMNet) (m : ChatMessages) (t : ℚ) :
    Except String String :=
  if c.groqApiKey = "" then Except.error "GROQ_API_KEY not set in environment variables"
  else net.groq m t

/-- Model of `LLMClient._call_google` (message-format conversion is part of
the abstracted round trip). -/
def callGoogle (c : LLMClient) (net : LLMNet) (m : ChatMessages) (t : ℚ) :
    Except String String :=
  if c.googleApiKey = "" then Except.error "GOOGLE_API_KEY not set in environment variables"
  else net.google m t

/-- Model of `LLMClient._call_openrouter`. -/
def callOpenrouter (c : LLMClient) (net : LLMNet) (m : ChatMessages) (t : ℚ) :
    Except String String :=
  if c.openrouterApiKey = "" then Except.error "OPENROUTER_API_KEY not set in environment variables"
  else net.openrouter m t

/-- One backend invocation, recorded as (backend tag, arguments). -/
abbrev Attempt := String × ChatMessages × ℚ

/-- The provider dispatch inside the `try` block of `LLMClient.chat`,
including the `raise ValueError` arm for an unknown provider tag (which is
inside the `try` and therefore also subject to the fallback handler). -/
def primaryDispatch (c : LLMClient) (net : LLMNet) (m : ChatMessages) (t : ℚ) :
    Except String String × List Attempt :=
  if c.provider = "ollama" then (callOllama net m t, [("ollama", m, t)])
  else if c.provider = "groq" then (callGroq c net m t, [("groq", m, t)])
  else if c.provider = "google" ∨ c.provider = "gemini" then
    (callGoogle c net m t, [(c.provider, m, t)])
  else if c.provider = "openrouter" then (callOpenrouter c net m t, [("openrouter", m, t)])
  else (Except.error ("Unknown LLM provider: " ++ c.provider), [])

/-- Model of `LLMClient.chat`, additionally returning the list of backend
invocations in order (with the arguments each one received). -/
def LLMClient.chat (c : LLMClient) (net : LLMNet) (m : ChatMessages) (t : ℚ) :
    Except String String × List Attempt :=
  match primaryDispatch c net m t with
  | (Except.ok s, tr) => (Except.ok s, tr)
  | (Except.error e, tr) =>
    if c.provider ≠ "ollama" then
      match callOllama net m t with
      | Except.ok s => (Except.ok s, tr ++ [("ollama", m, t)])
      | Except.error _ =>
        (Except.error ("Both " ++ c.provider ++
          " and Ollama fallback failed. Primary error: " ++ e),
         tr ++ [("ollama", m, t)])
    else (Except.error e, tr)

/-! ### The Evaluator's criteria scoring (`evaluator_agent.py`) -/

/-- The per-key extraction inside `EvaluatorAgent.evaluate_criteria`: keep
`data['score']` when the parsed entry is a dict containing `'score'`,
otherwise substitute the default score 7.0. -/
def extractScore (v : Json) : Json :=
  match v with
  | Json.obj members =>
    match jFind members "score" with
    | some s => s
    | none => Json.num 7
  | _ => Json.num 7

/-- The `scores` dict built by `EvaluatorAgent.evaluate_criteria` from the
parsed response: one entry per key of `detailed_scores.items()`;
`AttributeError` when the parsed response is not a dict. -/
def evaluateCriteriaScores (detailed : Json) : Except PyErr (List (String × Json)) :=
  match detailed with
  | Json.obj members =>
    Except.ok (members.foldl (fun acc kv => jInsert acc kv.1 (extractScore kv.2)) [])
  | _ => Except.error PyErr.attrError

/-- `EvaluatorAgent.evaluate_criteria` after the chat response arrives:
parse with fallback `{}`, then extract the numeric score per criterion. -/
def evaluateCriteria (response : String) : Except PyErr (List (String × Json)) :=
  evaluateCriteriaScores (parseJsonResponse response jEmptyObj)

/-- The left-to-right accumulation performed by Python `sum(...)` over
decoded values, starting from `acc`: numbers add, booleans count as 0/1
(Python `bool` is an `int`), anything else raises `TypeError`. -/
def pySumFrom (acc : ℚ) : List Json → Except PyErr ℚ
  | [] => Except.ok acc
  | v :: rest =>
    match v with
    | Json.num q => pySumFrom (acc + q) rest
    | Json.bool b => pySumFrom (acc + if b then 1 else 0) rest
    | _ => Except.error PyErr.typeError

/-- Python `sum(...)` over decoded values (initial value 0). -/
def pySumNums (vs : List Json) : Except PyErr ℚ :=
  pySumFrom 0 vs

/-- The overall-score computation of `EvaluatorAgent.evaluate_full_plan`:
`sum(scores.values()) / len(scores)` — the sum is evaluated first, then
the division raises `ZeroDivisionError` when the dict is empty. -/
def overallScore (scores : List (String × Json)) : Except PyErr ℚ := do
  let s ← pySumNums (scores.map (·.2))
  if scores.length = 0 then Except.error PyErr.zeroDiv
  else Except.ok (s / (scores.length : ℚ))

/-- The `overall_score` computed by `EvaluatorAgent.evaluate_full_plan`
from the criteria-scoring response (lines 42 and 52-54 of
`evaluator_agent.py`): the criterion-score dict, then
`sum(scores.values()) / len(scores)`. -/
def evaluateOverall (response : String) : Except PyErr ℚ := do
  let scores ← evaluateCriteria response
  overallScore scores

/-! ### The fast orchestrator (`fast_marketing_orchestrator.py`)

LLM calls are abstracted into an oracle `Nat → Except String String`
giving the outcome of the i-th `self.llm.chat` invocation of a run
(including the gateway's internal fallback); prompt texts are
interpolations of the attribute values bound below and only influence the
run through the oracle. -/

/-- Model of `FastMarketingOrchestrator._generate`: any exception from the
chat call is absorbed and replaced by the literal string `"\x7b\x7d"`. -/
def genText (chatResult : Except String String) : String :=
  match chatResult with
  | Except.ok s => s
  | Except.error _ => "\x7b\x7d"

/-- Model of `FastMarketingOrchestrator._research_phase`: reads the
attribute values used by the two consolidated prompts (an
`AttributeError` from `.get` on a non-dict attribute set propagates),
then issues the market-analysis call (oracle index 0) and the SWOT call
(oracle index 1), each parsed by the Extractor. -/
def researchPhase (oracle : Nat → Except String String) (pd : Json) :
    Except PyErr Json := do
  let _pn ← pyGet pd "product_name" (Json.str "Unknown Product")
  let _cat ← pyGet pd "product_category" (Json.str "general")
  let _feat ← pyGet pd "product_features" (Json.str "")
  let _usp ← pyGet pd "product_usp" (Json.str "")
  let _tp ← pyGet pd "target_primary" (Json.str "general consumers")
  let _ts ← pyGet pd "target_secondary" (Json.str "")
  let _dem ← pyGet pd "target_demographics" (Json.str "")
  let _psy ← pyGet pd "target_psychographics" (Json.str "")
  let _comp ← pyGet pd "competitors" (Json.str "market competitors")
  let _ms ← pyGet pd "market_size" (Json.str "")
  let _cp ← pyGet pd "competitor_pricing" (Json.str "")
  let marketResult := genText (oracle 0)
  let swotResult := genText (oracle 1)
  Except.ok (Json.obj [
    ("market_intelligence", fastParseJson marketResult),
    ("swot", fastParseJson swotResult)])

/-- The pattern `', '.join(v) if v else 'Various channels'` used when
interpolating channel lists into the strategy prompts. -/
def joinOrVarious (v : Json) : Except PyErr String :=
  if jTruthy v then pyJoin ", " v else Except.ok "Various channels"

/-- Model of `FastMarketingOrchestrator._strategy_phase`: reads the
attribute values used by the five consolidated strategy prompts (the
channel lists additionally go through `', '.join`, which raises
`TypeError` on non-string content), then issues the positioning (2),
goals (3), marketing-mix (4), action-plan (5), budget-monitoring (6) and
risks-launch (7) calls, each parsed by the Extractor.  The `research`
argument is accepted but, in this implementation, not interpolated into
any prompt. -/
def strategyPhase (oracle : Nat → Except String String) (pd : Json)
    (research : Json) : Except PyErr Json := do
  let _pn ← pyGet pd "product_name" Json.null
  let _cat ← pyGet pd "product_category" (Json.str "")
  let _feat ← pyGet pd "product_features" (Json.str "")
  let _usp ← pyGet pd "product_usp" (Json.str "")
  let _brand ← pyGet pd "product_branding" (Json.str "")
  let _var ← pyGet pd "product_variants" (Json.str "")
  let _tp ← pyGet pd "target_primary" (Json.str "")
  let _tprob ← pyGet pd "target_problems" (Json.str "")
  let _pc ← pyGet pd "production_cost" (Json.str "")
  let _dm ← pyGet pd "desired_margin" (Json.str "")
  let _sp ← pyGet pd "suggested_price" (Json.str "")
  let _mb ← pyGet pd "marketing_budget" (Json.str "moderate")
  let marketingChannels ← pyGet pd "marketing_channels" (Json.arr [])
  let _tone ← pyGet pd "tone_of_voice" (Json.str "")
  let distributionChannels ← pyGet pd "distribution_channels" (Json.arr [])
  let _ld ← pyGet pd "launch_date" (Json.str "Q1 2026")
  let positioning := genText (oracle 2)
  let goals := genText (oracle 3)
  let _j1 ← joinOrVarious distributionChannels
  let _j2 ← joinOrVarious marketingChannels
  let marketingMix := genText (oracle 4)
  let _j3 ← joinOrVarious marketingChannels
  let _j4 ← joinOrVarious distributionChannels
  let actionPlan := genText (oracle 5)
  let _j5 ← joinOrVarious marketingChannels
  let budgetMonitoring := genText (oracle 6)
  let _comp ← pyGet pd "competitors" (Json.str "")
  let _j6 ← joinOrVarious distributionChannels
  let risksLaunch := genText (oracle 7)
  Except.ok (Json.obj [
    ("positioning", fastParseJson positioning),
    ("goals", fastParseJson goals),
    ("marketing_mix", fastParseJson marketingMix),
    ("action_plan", fastParseJson actionPlan),
    ("budget_monitoring", fastParseJson budgetMonitoring),
    ("risks_launch", fastParseJson risksLaunch)])

/-- The fixed placeholder evaluation block embedded by
`FastMarketingOrchestrator._compile_plan` (fast mode skips the detailed
quality check). -/
def fastEvaluationBlock : Json :=
  Json.obj [
    ("overall_score", Json.num (15/2)),
    ("note", Json.str "Fast generation mode - detailed quality check skipped"),
    ("criterion_scores", Json.obj [
      ("consistency", Json.num (15/2)),
      ("quality", Json.num (15/2)),
      ("originality", Json.num 7),
      ("feasibility", Json.num 8),
      ("completeness", Json.num 7),
      ("ethics", Json.num (17/2))]),
    ("strengths", Json.arr [
      Json.str "Quick generation time",
      Json.str "Comprehensive structure",
      Json.str "Clear actionable insights"]),
    ("weaknesses", Json.arr [
      Json.str "Less detailed than full mode",
      Json.str "Automated quality check"]),
    ("recommendations", Json.arr [
      Json.str "Review and customize generated content",
      Json.str "Add specific budget numbers",
      Json.str "Validate target audience assumptions"])]

/-- The executive-summary objectives comprehension
`[goal.get('goal', '') for goal in goals.get('goals', [])[:3]]`, invoked
only when `goals.get('goals')` is truthy: a list slices and each element
must be a dict; a (necessarily non-empty) string slices and its first
character raises `AttributeError` on `.get`; other truthy values are not
sliceable (`TypeError`). -/
def goalsObjectives (v : Json) : Except PyErr Json :=
  match v with
  | Json.arr elems => do
    let picked ← (elems.take 3).mapM (fun g => pyGet g "goal" (Json.str ""))
    Except.ok (Json.arr picked)
  | Json.str _ => Except.error PyErr.attrError
  | _ => Except.error PyErr.typeError

/-- The whole conditional expression
`[...] if goals.get('goals') else []` (with `goalsVal` the already
evaluated condition value `goals.get('goals')`). -/
def execObjectives (goals goalsVal : Json) : Except PyErr Json :=
  if jTruthy goalsVal then do
    let gv ← pyGet goals "goals" (Json.arr [])
    goalsObjectives gv
  else Except.ok (Json.arr [])

/-- The 12 fixed section identifiers of the compiled document. -/
def sectionIds : List String :=
  ["1_executive_summary", "2_mission_vision_value", "3_situation_market_analysis",
   "4_swot_analysis", "5_target_audience_positioning", "6_marketing_goals_kpis",
   "7_strategy_marketing_mix", "8_tactics_action_plan", "9_budget_resources",
   "10_monitoring_evaluation", "11_risks_mitigation", "12_launch_strategy"]

/-- Model of `FastMarketingOrchestrator._compile_plan` (`datetime.now()`
is passed in as `now`).  Every `.get` is in the `Except` monad because a
fragment decoded from an LLM response need not be a dict. -/
def compilePlan (pd research strategy : Json) (now : String) : Except PyErr Json := do
  let productName ← pyGet pd "product_name" (Json.str "Product")
  let marketIntel ← pyGet research "market_intelligence" jEmptyObj
  let swot ← pyGet research "swot" jEmptyObj
  let positioning ← pyGet strategy "positioning" jEmptyObj
  let goals ← pyGet strategy "goals" jEmptyObj
  let marketingMix ← pyGet strategy "marketing_mix" jEmptyObj
  let actionPlan ← pyGet strategy "action_plan" jEmptyObj
  let budgetMonitoring ← pyGet strategy "budget_monitoring" jEmptyObj
  let risksLaunch ← pyGet strategy "risks_launch" jEmptyObj
  let valueProp ← pyGet positioning "value_proposition" (Json.str "")
  let productDescription ← pyGet pd "product_features" (Json.str "Innovative product in the market")
  let goalsVal ← pyGet goals "goals" Json.null
  let objectives ← execObjectives goals goalsVal
  let strategyOverview ← pyGet positioning "positioning_statement" (Json.str "")
  let bmBudget ← pyGet budgetMonitoring "budget" jEmptyObj
  let roi ← pyGet bmBudget "roi_projection" (Json.str "positive")
  let targetMarket ← pyGet marketIntel "target_demographics" jEmptyObj
  -- (the Python local `exec_summary` is inlined below as the content of
  -- section 1_executive_summary)
  let mission ← pyGet positioning "mission" (Json.str "")
  let vision ← pyGet positioning "vision" (Json.str "")
  let usps ← pyGet positioning "unique_selling_points" (Json.arr [])
  let brandPersonality ← pyGet positioning "brand_personality" jEmptyObj
  let currentSituation ← pyGet marketIntel "current_situation" (Json.str "")
  let marketSize ← pyGet marketIntel "market_size" (Json.str "")
  let growthRate ← pyGet marketIntel "growth_rate" (Json.str "")
  let trends ← pyGet marketIntel "trends" (Json.arr [])
  let competitors ← pyGet marketIntel "competitors" (Json.arr [])
  let pestAnalysis ← pyGet marketIntel "pest_analysis" jEmptyObj
  let marketOpportunities ← pyGet marketIntel "market_opportunities" (Json.arr [])
  let targetDemographics ← pyGet marketIntel "target_demographics" jEmptyObj
  let targetPsychographics ← pyGet marketIntel "target_psychographics" jEmptyObj
  let positioningStatement ← pyGet positioning "positioning_statement" (Json.str "")
  let positioningVs ← pyGet positioning "positioning_vs_competitors" (Json.str "")
  let messaging ← pyGet positioning "messaging" (Json.arr [])
  let goalsList ← pyGet goals "goals" (Json.arr [])
  let kpis ← pyGet goals "kpis" (Json.arr [])
  let bmMonitoring ← pyGet budgetMonitoring "monitoring" jEmptyObj
  let risks ← pyGet risksLaunch "risks" (Json.arr [])
  let launchStrategy ← pyGet risksLaunch "launch_strategy" jEmptyObj
  Except.ok (Json.obj [
    ("metadata", Json.obj [
      ("product_name", productName),
      ("generated_at", Json.str now),
      ("version", Json.str "fast_v1"),
      ("generation_mode", Json.str "fast"),
      ("quality_score", Json.num (15/2))]),
    ("sections", Json.obj [
      ("1_executive_summary", Json.obj [
        ("title", Json.str "1. Executive Summary"),
        ("description", Json.str "A brief overview of the entire plan: what the product is, what the objectives are, which strategy is followed, and what results are expected."),
        ("content", Json.obj [
          ("overview", Json.str ("Complete marketing plan for " ++ pyStr productName ++ ". " ++ pyStr valueProp)),
          ("product_description", productDescription),
          ("objectives", objectives),
          ("strategy_overview", strategyOverview),
          ("expected_results", Json.str ("ROI: " ++ pyStr roi)),
          ("target_market", targetMarket)])]),
      ("2_mission_vision_value", Json.obj [
        ("title", Json.str "2. Mission, Vision & Value Proposition"),
        ("description", Json.str "What is the goal and vision of the project? What makes the product unique and why would customers choose it?"),
        ("content", Json.obj [
          ("mission", mission),
          ("vision", vision),
          ("value_proposition", valueProp),
          ("unique_selling_points", usps),
          ("brand_personality", brandPersonality)])]),
      ("3_situation_market_analysis", Json.obj [
        ("title", Json.str "3. Situation & Market Analysis"),
        ("description", Json.str "Analysis of the current situation, internal strengths and weaknesses, and the external market (opportunities and threats). Includes SWOT and PEST analysis."),
        ("content", Json.obj [
          ("current_situation", currentSituation),
          ("market_size", marketSize),
          ("growth_rate", growthRate),
          ("trends", trends),
          ("competitors", competitors),
          ("pest_analysis", pestAnalysis),
          ("market_opportunities", marketOpportunities)])]),
      ("4_swot_analysis", Json.obj [
        ("title", Json.str "4. SWOT Analysis"),
        ("description", Json.str "Overview of strengths, weaknesses, opportunities, and threats that impact the product or organization."),
        ("content", swot)]),
      ("5_target_audience_positioning", Json.obj [
        ("title", Json.str "5. Target Audience & Positioning"),
        ("description", Json.str "Who is the target audience? How is the product positioned relative to competitors and what place does it occupy in the consumer\x27s mind?"),
        ("content", Json.obj [
          ("target_demographics", targetDemographics),
          ("target_psychographics", targetPsychographics),
          ("positioning_statement", positioningStatement),
          ("positioning_vs_competitors", positioningVs),
          ("messaging", messaging)])]),
      ("6_marketing_goals_kpis", Json.obj [
        ("title", Json.str "6. Marketing Goals & KPIs"),
        ("description", Json.str "Clear and measurable objectives (SMART). Including key performance indicators to measure success, such as conversion rate or market share."),
        ("content", Json.obj [
          ("goals", goalsList),
          ("kpis", kpis)])]),
      ("7_strategy_marketing_mix", Json.obj [
        ("title", Json.str "7. Strategy & Marketing Mix (7Ps)"),
        ("description", Json.str "The overarching strategy to achieve the goals. Focus on the marketing mix (Product, Price, Place, Promotion, People, Process, Physical Evidence)."),
        ("content", marketingMix)]),
      ("8_tactics_action_plan", Json.obj [
        ("title", Json.str "8. Tactics & Action Plan"),
        ("description", Json.str "Concrete actions and a timeline of activities (pre-launch, launch, and follow-up)."),
        ("content", actionPlan)]),
      ("9_budget_resources", Json.obj [
        ("title", Json.str "9. Budget & Resources"),
        ("description", Json.str "Cost estimation, required resources, and expected revenues. Including ROI estimation."),
        ("content", bmBudget)]),
      ("10_monitoring_evaluation", Json.obj [
        ("title", Json.str "10. Monitoring & Evaluation"),
        ("description", Json.str "How progress is measured and when evaluations take place to adjust the plan."),
        ("content", bmMonitoring)]),
      ("11_risks_mitigation", Json.obj [
        ("title", Json.str "11. Risks & Mitigation"),
        ("description", Json.str "Overview of potential risks (such as market failure or technical problems) and how they are addressed."),
        ("content", Json.obj [("risks", risks)])]),
      ("12_launch_strategy", Json.obj [
        ("title", Json.str "12. Launch Strategy for New Product"),
        ("description", Json.str "Planning of product introduction, adoption strategy, and launch phases."),
        ("content", launchStrategy)])]),
    ("evaluation", fastEvaluationBlock),
    ("raw_data", Json.obj [
      ("research", research),
      ("strategy", strategy)])])

/-- Model of `FastMarketingOrchestrator.generate_marketing_plan`: research
phase, strategy phase, compile.  The surrounding `try`-handler prints and
re-raises, so every exception passes through unchanged; the
`auto_iterate` parameter is accepted but never read. -/
def generateMarketingPlanFast (oracle : Nat → Except String String) (pd : Json)
    (autoIterate : Bool) (now : String) : Except PyErr Json := do
  let _unused := autoIterate
  let research ← researchPhase oracle pd
  let strategy ← strategyPhase oracle pd research
  compilePlan pd research strategy now

/-! ### The full orchestrator (`marketing_plan_orchestrator.py`)

The three delegated agents (`conduct_full_research`,
`develop_full_strategy`, `evaluate_full_plan`) are abstracted into
function parameters; the orchestration layer itself is modelled exactly,
and the run additionally records a trace of the phases it executes. -/

/-- Model of `MarketingPlanOrchestrator._build_section_1`.  Note: the
sections of this orchestrator carry only `title` and `content` — no
`description` key. -/
def buildSection1 (pd strategyData : Json) : Except PyErr Json := do
  let _pd := pd
  let execSummary ← pyGet strategyData "executive_summary" jEmptyObj
  let overview ← pyGet execSummary "overview" (Json.str "")
  let marketOpportunity ← pyGet execSummary "market_opportunity" (Json.str "")
  let target ← pyGet execSummary "target" (Json.str "")
  let strat ← pyGet execSummary "strategy" (Json.str "")
  let expectedOutcomes ← pyGet execSummary "expected_outcomes" (Json.str "")
  Except.ok (Json.obj [
    ("title", Json.str "Executive Summary"),
    ("content", Json.obj [
      ("product_overview", overview),
      ("market_opportunity", marketOpportunity),
      ("target_audience", target),
      ("strategic_approach", strat),
      ("expected_outcomes", expectedOutcomes)])])

/-- Model of `MarketingPlanOrchestrator._build_section_2`. -/
def buildSection2 (strategyData : Json) : Except PyErr Json := do
  let mvv ← pyGet strategyData "mission_vision_value" jEmptyObj
  let mission ← pyGet mvv "mission" (Json.str "")
  let vision ← pyGet mvv "vision" (Json.str "")
  let valueProp ← pyGet mvv "value_proposition" (Json.str "")
  let coreValues ← pyGet mvv "core_values" (Json.arr [])
  Except.ok (Json.obj [
    ("title", Json.str "Mission, Vision, and Value Proposition"),
    ("content", Json.obj [
      ("mission", mission),
      ("vision", vision),
      ("value_proposition", valueProp),
      ("core_values", coreValues)])])

/-- Model of `MarketingPlanOrchestrator._build_section_3`. -/
def buildSection3 (researchData : Json) : Except PyErr Json := do
  let market ← pyGet researchData "market_analysis" jEmptyObj
  let trends ← pyGet researchData "trends" jEmptyObj
  let competitors ← pyGet researchData "competitor_analysis" jEmptyObj
  let marketSize ← pyGet market "market_size" (Json.str "")
  let growthPotential ← pyGet market "growth_potential" (Json.str "")
  let maturityStage ← pyGet market "maturity_stage" (Json.str "")
  let segments ← pyGet market "segments" (Json.arr [])
  let currentTrends ← pyGet trends "current_trends" (Json.arr [])
  let emergingTrends ← pyGet trends "emerging_trends" (Json.arr [])
  let consumerTrends ← pyGet trends "consumer_trends" (Json.arr [])
  let technologyTrends ← pyGet trends "technology_trends" (Json.arr [])
  let keyCompetitors ← pyGet competitors "competitors" (Json.arr [])
  let competitiveIntensity ← pyGet competitors "competitive_intensity" (Json.str "")
  let marketGaps ← pyGet competitors "gaps" (Json.arr [])
  Except.ok (Json.obj [
    ("title", Json.str "Situation and Market Analysis"),
    ("content", Json.obj [
      ("market_overview", Json.obj [
        ("market_size", marketSize),
        ("growth_potential", growthPotential),
        ("maturity_stage", maturityStage),
        ("market_segments", segments)]),
      ("market_trends", Json.obj [
        ("current_trends", currentTrends),
        ("emerging_trends", emergingTrends),
        ("consumer_trends", consumerTrends),
        ("technology_trends", technologyTrends)]),
      ("competitive_landscape", Json.obj [
        ("key_competitors", keyCompetitors),
        ("competitive_intensity", competitiveIntensity),
        ("market_gaps", marketGaps)])])])

/-- Model of `MarketingPlanOrchestrator._build_section_4`. -/
def buildSection4 (researchData : Json) : Except PyErr Json := do
  let swot ← pyGet researchData "swot_analysis" jEmptyObj
  let strengths ← pyGet swot "strengths" (Json.arr [])
  let weaknesses ← pyGet swot "weaknesses" (Json.arr [])
  let opportunities ← pyGet swot "opportunities" (Json.arr [])
  let threats ← pyGet swot "threats" (Json.arr [])
  Except.ok (Json.obj [
    ("title", Json.str "SWOT Analysis"),
    ("content", Json.obj [
      ("strengths", strengths),
      ("weaknesses", weaknesses),
      ("opportunities", opportunities),
      ("threats", threats)])])

/-- Model of `MarketingPlanOrchestrator._build_section_5`. -/
def buildSection5 (researchData strategyData : Json) : Except PyErr Json := do
  let audience ← pyGet researchData "target_audience" jEmptyObj
  let personas ← pyGet researchData "personas" (Json.arr [])
  let positioning ← pyGet strategyData "positioning" jEmptyObj
  let messaging ← pyGet strategyData "messaging" jEmptyObj
  let primarySegment ← pyGet audience "primary_segment" (Json.str "")
  let secondarySegments ← pyGet audience "secondary_segments" (Json.arr [])
  let audienceSize ← pyGet audience "audience_size" (Json.str "")
  let characteristics ← pyGet audience "characteristics" (Json.arr [])
  let painPoints ← pyGet audience "pain_points" (Json.arr [])
  let motivations ← pyGet audience "motivations" (Json.arr [])
  let positioningStatement ← pyGet positioning "positioning_statement" (Json.str "")
  let competitivePositioning ← pyGet positioning "competitive_positioning" (Json.str "")
  let positioningPillars ← pyGet positioning "positioning_pillars" (Json.arr [])
  let perceptualMap ← pyGet positioning "perceptual_map_axes" jEmptyObj
  let toneOfVoice ← pyGet messaging "tone_of_voice" jEmptyObj
  let keyMessages ← pyGet messaging "key_messages" (Json.arr [])
  let messagingPillars ← pyGet messaging "messaging_pillars" (Json.arr [])
  let taglineOptions ← pyGet messaging "tagline_options" (Json.arr [])
  Except.ok (Json.obj [
    ("title", Json.str "Target Audience and Positioning"),
    ("content", Json.obj [
      ("target_audience", Json.obj [
        ("primary_segment", primarySegment),
        ("secondary_segments", secondarySegments),
        ("audience_size", audienceSize),
        ("characteristics", characteristics),
        ("pain_points", painPoints),
        ("motivations", motivations)]),
      ("buyer_personas", personas),
      ("positioning", Json.obj [
        ("positioning_statement", positioningStatement),
        ("competitive_positioning", competitivePositioning),
        ("positioning_pillars", positioningPillars),
        ("perceptual_map", perceptualMap)]),
      ("messaging", Json.obj [
        ("tone_of_voice", toneOfVoice),
        ("key_messages", keyMessages),
        ("messaging_pillars", messagingPillars),
        ("tagline_options", taglineOptions)])])])

/-- Model of `MarketingPlanOrchestrator._build_section_6`. -/
def buildSection6 (strategyData : Json) : Except PyErr Json := do
  let goals ← pyGet strategyData "marketing_goals" jEmptyObj
  let primaryGoals ← pyGet goals "primary_goals" (Json.arr [])
  let shortTermGoals ← pyGet goals "short_term_goals" (Json.arr [])
  let longTermGoals ← pyGet goals "long_term_goals" (Json.arr [])
  let successCriteria ← pyGet goals "success_criteria" (Json.arr [])
  Except.ok (Json.obj [
    ("title", Json.str "Marketing Goals and KPIs"),
    ("content", Json.obj [
      ("primary_goals", primaryGoals),
      ("short_term_goals", shortTermGoals),
      ("long_term_goals", longTermGoals),
      ("success_criteria", successCriteria)])])

/-- Model of `MarketingPlanOrchestrator._build_section_7`. -/
def buildSection7 (strategyData : Json) : Except PyErr Json := do
  let mix ← pyGet strategyData "marketing_mix" jEmptyObj
  let product ← pyGet mix "product" jEmptyObj
  let price ← pyGet mix "price" jEmptyObj
  let place ← pyGet mix "place" jEmptyObj
  let promotion ← pyGet mix "promotion" jEmptyObj
  let people ← pyGet mix "people" jEmptyObj
  let process ← pyGet mix "process" jEmptyObj
  let physicalEvidence ← pyGet mix "physical_evidence" jEmptyObj
  Except.ok (Json.obj [
    ("title", Json.str "Strategy and Marketing Mix"),
    ("content", Json.obj [
      ("product", product),
      ("price", price),
      ("place", place),
      ("promotion", promotion),
      ("people", people),
      ("process", process),
      ("physical_evidence", physicalEvidence)])])

/-- Model of `MarketingPlanOrchestrator._build_section_8`. -/
def buildSection8 (strategyData : Json) : Except PyErr Json := do
  let actionPlan ← pyGet strategyData "action_plan" jEmptyObj
  let preLaunch ← pyGet actionPlan "pre_launch" (Json.arr [])
  let launch ← pyGet actionPlan "launch" (Json.arr [])
  let postLaunch ← pyGet actionPlan "post_launch" (Json.arr [])
  Except.ok (Json.obj [
    ("title", Json.str "Tactics and Action Plan"),
    ("content", Json.obj [
      ("pre_launch", preLaunch),
      ("launch", launch),
      ("post_launch", postLaunch)])])

/-- Model of `MarketingPlanOrchestrator._build_section_9`. -/
def buildSection9 (strategyData : Json) : Except PyErr Json := do
  let budget ← pyGet strategyData "budget" jEmptyObj
  let totalBudget ← pyGet budget "total_budget" (Json.str "")
  let budgetBreakdown ← pyGet budget "budget_breakdown" jEmptyObj
  let phaseAllocation ← pyGet budget "phase_allocation" jEmptyObj
  let roiProjections ← pyGet budget "roi_projections" jEmptyObj
  let resourceRequirements ← pyGet budget "resource_requirements" (Json.arr [])
  Except.ok (Json.obj [
    ("title", Json.str "Budget and Resources"),
    ("content", Json.obj [
      ("total_budget", totalBudget),
      ("budget_breakdown", budgetBreakdown),
      ("phase_allocation", phaseAllocation),
      ("roi_projections", roiProjections),
      ("resource_requirements", resourceRequirements)])])

/-- Model of `MarketingPlanOrchestrator._build_section_10`. -/
def buildSection10 (strategyData : Json) : Except PyErr Json := do
  let monitoring ← pyGet strategyData "monitoring" jEmptyObj
  let keyMetrics ← pyGet monitoring "key_metrics" jEmptyObj
  let trackingTools ← pyGet monitoring "tracking_tools" (Json.arr [])
  let reportingSchedule ← pyGet monitoring "reporting_schedule" jEmptyObj
  let reviewMilestones ← pyGet monitoring "review_milestones" (Json.arr [])
  let successThresholds ← pyGet monitoring "success_thresholds" jEmptyObj
  Except.ok (Json.obj [
    ("title", Json.str "Monitoring and Evaluation"),
    ("content", Json.obj [
      ("key_metrics", keyMetrics),
      ("tracking_tools", trackingTools),
      ("reporting_schedule", reportingSchedule),
      ("review_milestones", reviewMilestones),
      ("success_thresholds", successThresholds)])])

/-- Model of `MarketingPlanOrchestrator._build_section_11`. -/
def buildSection11 (strategyData : Json) : Except PyErr Json := do
  let risks ← pyGet strategyData "risks" jEmptyObj
  let identifiedRisks ← pyGet risks "risks" (Json.arr [])
  Except.ok (Json.obj [
    ("title", Json.str "Risks and Mitigation"),
    ("content", Json.obj [("identified_risks", identifiedRisks)])])

/-- Model of `MarketingPlanOrchestrator._build_section_12`. -/
def buildSection12 (strategyData : Json) : Except PyErr Json := do
  let launch ← pyGet strategyData "launch_strategy" jEmptyObj
  let launchApproach ← pyGet launch "launch_approach" (Json.str "")
  let preLaunchPhase ← pyGet launch "pre_launch" jEmptyObj
  let launchPhase ← pyGet launch "launch_phase" jEmptyObj
  let postLaunchPhase ← pyGet launch "post_launch_phase" jEmptyObj
  let adoptionStrategy ← pyGet launch "adoption_strategy" jEmptyObj
  let timeline ← pyGet launch "timeline" (Json.arr [])
  Except.ok (Json.obj [
    ("title", Json.str "Launch Strategy"),
    ("content", Json.obj [
      ("launch_approach", launchApproach),
      ("pre_launch_phase", preLaunchPhase),
      ("launch_phase", launchPhase),
      ("post_launch_phase", postLaunchPhase),
      ("adoption_strategy", adoptionStrategy),
      ("timeline", timeline)])])

/-- Model of `MarketingPlanOrchestrator._compile_final_plan`
(`datetime.now()` is passed in as `now`). -/
def compileFinalPlan (pd researchData strategyData evaluationData : Json)
    (iterations : Nat) (now : String) : Except PyErr Json := do
  let productName ← pyGet pd "product_name" (Json.str "Unknown Product")
  let qualityScore ← pyGet evaluationData "overall_score" (Json.num 0)
  let s1 ← buildSection1 pd strategyData
  let s2 ← buildSection2 strategyData
  let s3 ← buildSection3 researchData
  let s4 ← buildSection4 researchData
  let s5 ← buildSection5 researchData strategyData
  let s6 ← buildSection6 strategyData
  let s7 ← buildSection7 strategyData
  let s8 ← buildSection8 strategyData
  let s9 ← buildSection9 strategyData
  let s10 ← buildSection10 strategyData
  let s11 ← buildSection11 strategyData
  let s12 ← buildSection12 strategyData
  let overall ← pyGet evaluationData "overall_score" (Json.num 0)
  let criterionScores ← pyGet evaluationData "criterion_scores" jEmptyObj
  let strengths ← pyGet evaluationData "strengths" (Json.arr [])
  let weaknesses ← pyGet evaluationData "weaknesses" (Json.arr [])
  let recommendations ← pyGet evaluationData "final_recommendations" (Json.arr [])
  Except.ok (Json.obj [
    ("metadata", Json.obj [
      ("product_name", productName),
      ("generated_at", Json.str now),
      ("version", Json.str ("1." ++ toString iterations)),
      ("quality_score", qualityScore),
      ("status", Json.str "draft")]),
    ("sections", Json.obj [
      ("1_executive_summary", s1),
      ("2_mission_vision_value", s2),
      ("3_situation_market_analysis", s3),
      ("4_swot_analysis", s4),
      ("5_target_audience_positioning", s5),
      ("6_marketing_goals_kpis", s6),
      ("7_strategy_marketing_mix", s7),
      ("8_tactics_action_plan", s8),
      ("9_budget_resources", s9),
      ("10_monitoring_evaluation", s10),
      ("11_risks_mitigation", s11),
      ("12_launch_strategy", s12)]),
    ("evaluation", Json.obj [
      ("overall_score", overall),
      ("criterion_scores", criterionScores),
      ("strengths", strengths),
      ("weaknesses", weaknesses),
      ("recommendations", recommendations)]),
    ("raw_data", Json.obj [
      ("research", researchData),
      ("strategy", strategyData),
      ("evaluation", evaluationData)])])

/-- Model of `MarketingPlanOrchestrator._iterate_strategy`: copy the
attribute set, attach `_improvement_notes` sliced out of the evaluation,
and re-run the strategy agent on the enhanced copy. -/
def iterateStrategy (strategyFn : Json → Json → Json) (pd researchData : Json)
    (evaluation : Json) : Except PyErr Json := do
  let weaknesses ← pyGet evaluation "weaknesses" (Json.arr [])
  let weaknesses3 ← pySlice weaknesses 3
  let suggestions ← pyGet evaluation "improvement_suggestions" (Json.arr [])
  let suggestions3 ← pySlice suggestions 3
  let focus ← pyGet evaluation "final_recommendations" (Json.arr [])
  let focus2 ← pySlice focus 2
  let notes := Json.obj [
    ("weaknesses", weaknesses3),
    ("suggestions", suggestions3),
    ("focus_areas", focus2)]
  match pd with
  | Json.obj members => Except.ok (strategyFn (Json.obj (jInsert members "_improvement_notes" notes)) researchData)
  | _ => Except.error PyErr.attrError

/-- Python `value < 8.0`: `TypeError` unless the value is a number (a
`bool` compares as 0/1). -/
def pyLtEight (v : Json) : Except PyErr Bool :=
  match v with
  | Json.num q => Except.ok (decide (q < 8))
  | Json.bool b => Except.ok (decide ((if b then (1:ℚ) else 0) < 8))
  | _ => Except.error PyErr.typeError

/-- Model of `MarketingPlanOrchestrator.generate_marketing_plan` over
abstract agents, additionally returning the trace of executed phases
(`research`, `strategy`, `evaluate`, `compile`, in execution order).  The
iteration block runs when `auto_iterate` is set, the evaluation's overall
score is below 8.0, and `0 < max_iterations` (short-circuit order as in
the source); it re-runs the strategy agent on the enhanced attribute set
and re-evaluates, and the final compile then receives `iterations = 1`. -/
def generateMarketingPlanFull (researchFn : Json → Json)
    (strategyFn : Json → Json → Json) (evalFn : Json → Json → Json → Json)
    (pd : Json) (autoIterate : Bool) (maxIterations : Nat) (now : String) :
    Except PyErr (Json × List String) := do
  let researchData := researchFn pd
  let strategyData := strategyFn pd researchData
  let evaluationData := evalFn pd researchData strategyData
  let tr := ["research", "strategy", "evaluate"]
  if autoIterate then do
    let score ← pyGet evaluationData "overall_score" (Json.num 0)
    let below ← pyLtEight score
    if below ∧ 0 < maxIterations then do
      let strategyData2 ← iterateStrategy strategyFn pd researchData evaluationData
      let evaluationData2 := evalFn pd researchData strategyData2
      let plan ← compileFinalPlan pd researchData strategyData2 evaluationData2 1 now
      Except.ok (plan, tr ++ ["strategy", "evaluate", "compile"])
    else do
      let plan ← compileFinalPlan pd researchData strategyData evaluationData 0 now
      Except.ok (plan, tr ++ ["compile"])
  else do
    let plan ← compileFinalPlan pd researchData strategyData evaluationData 0 now
    Except.ok (plan, tr ++ ["compile"])

/-! ### Property checkers (formalisations of the specified document shape) -/

/-- Is the value `null` (Python `None`)? -/
def jIsNull : Json → Bool
  | Json.null => true
  | _ => false

/-- Is the optional value present and a string? -/
def isStrVal : Option Json → Bool
  | some (Json.str _) => true
  | _ => false

/-- Is the optional value present and non-null? -/
def nonNullVal : Option Json → Bool
  | some c => !(jIsNull c)
  | none => false

/-- A section entry is well-formed when it carries a string `title`, a
string `description`, and a non-null `content`. -/
def sectionOk (s : Json) : Bool :=
  isStrVal (jLookup s "title") && isStrVal (jLookup s "description") &&
    nonNullVal (jLookup s "content")

/-- The specified `sections` invariant: the plan's `sections` mapping has
exactly the 12 fixed identifiers, in their fixed order, and every entry
is a well-formed section. -/
def sectionsWellFormed (plan : Json) : Bool :=
  match jLookup plan "sections" with
  | some (Json.obj secs) =>
    (secs.map Prod.fst == sectionIds) && secs.all (fun kv => sectionOk kv.2)
  | _ => false

/-- Lift a checker over `Except`: vacuously true on errors (used to state
"whenever a document is returned, it satisfies ..."). -/
def exceptAll {ε α : Type} (f : α → Bool) : Except ε α → Bool
  | Except.ok a => f a
  | Except.error _ => true

/-- Is the value a JSON string? -/
def jIsStr : Json → Bool
  | Json.str _ => true
  | _ => false

/-- A single attribute value of a valid attribute set: an optional scalar
(string or absent/None) or a list of strings, per the spec's data model. -/
def attrOk : Json → Bool
  | Json.str _ => true
  | Json.null => true
  | Json.arr elems => elems.all jIsStr
  | _ => false

/-- A valid attribute set: a mapping whose values are all valid attribute
values. -/
def validAttrSet : Json → Bool
  | Json.obj members => members.all (fun kv => attrOk kv.2)
  | _ => false

example :
    exceptAll sectionsWellFormed
      (generateMarketingPlanFast (fun _ => Except.error "conn refused")
        (Json.obj [("product_name", Json.str "EcoBottle")]) false "T") = true := rfl
example :
    (generateMarketingPlanFull (fun _ => jEmptyObj) (fun _ _ => jEmptyObj)
      (fun _ _ _ => Json.obj [("overall_score", Json.num 6)])
      (Json.obj [("product_name", Json.str "EcoBottle")]) true 1 "T").map Prod.snd =
    Except.ok ["research", "strategy", "evaluate", "strategy", "evaluate", "compile"] := rfl

/-! ### General lemmas about the embedding -/

theorem exceptBind_ok {ε α β : Type} {x : Except ε α} {f : α → Except ε β} {b : β} :
    x >>= f = Except.ok b ↔ ∃ a, x = Except.ok a ∧ f a = Except.ok b := by
  cases x with
  | error e => simp [Bind.bind, Except.bind]
  | ok a => simp [Bind.bind, Except.bind]

theorem exceptBind_error {ε α β : Type} {x : Except ε α} {f : α → Except ε β} {a : α}
    (h : x = Except.ok a) {e : ε} (hf : f a = Except.error e) :
    x >>= f = Except.error e := by
  subst h
  simpa [Bind.bind, Except.bind] using hf

theorem ok_bind {ε α β : Type} (a : α) (f : α → Except ε β) :
    (Except.ok a : Except ε α) >>= f = f a := rfl

theorem pyGet_ok_elim {d : Json} {k : String} {dflt v : Json}
    (h : pyGet d k dflt = Except.ok v) :
    ∃ members, d = Json.obj members ∧ v = (jFind members k).getD dflt := by
  cases d <;> simp [pyGet] at h <;> exact ⟨_, rfl, h.symm⟩

theorem pyGet_obj (members : List (String × Json)) (k : String) (dflt : Json) :
    pyGet (Json.obj members) k dflt = Except.ok ((jFind members k).getD dflt) := rfl

theorem jFind_cons (k1 : String) (v1 : Json) (rest : List (String × Json))
    (key : String) :
    jFind ((k1, v1) :: rest) key = if k1 = key then some v1 else jFind rest key := rfl

theorem jInsert_cons (k1 : String) (v1 : Json) (rest : List (String × Json))
    (key : String) (val : Json) :
    jInsert ((k1, v1) :: rest) key val =
      if k1 = key then (k1, val) :: rest else (k1, v1) :: jInsert rest key val := rfl

/-- For an all-Python-whitespace list, dropping leading JSON whitespace
leaves either nothing or a list headed by a vertical tab or form feed. -/
theorem skipWs_allSpace :
    ∀ cs : List Char, cs.all pyIsSpace = true →
      skipWs cs = [] ∨
        ∃ rest, skipWs cs = '\x0b' :: rest ∨ skipWs cs = '\x0c' :: rest := by
  intro cs h
  induction cs with
  | nil => exact Or.inl rfl
  | cons c rest ih =>
    simp only [List.all_cons, Bool.and_eq_true] at h
    by_cases hw : isJsonWs c = true
    · simpa [skipWs, hw] using ih h.2
    · have hc : c = '\x0b' ∨ c = '\x0c' := by
        have h5 := h.1
        simp only [pyIsSpace, decide_eq_true_eq] at h5
        simp only [isJsonWs, decide_eq_true_eq] at hw
        tauto
      refine Or.inr ⟨rest, ?_⟩
      rcases hc with hc | hc <;> subst hc <;> simp [skipWs, isJsonWs]

/-- A value cannot start at a vertical-tab or form-feed character, so an
all-whitespace (in Python's sense) input never parses. -/
theorem parseCore_allSpace (fuel : Nat) (cs : List Char)
    (h : cs.all pyIsSpace = true) : parseCore fuel (ParseJob.value cs) = none := by
  cases fuel with
  | zero => rfl
  | succ n =>
    rcases skipWs_allSpace cs h with h0 | ⟨rest, h1 | h1⟩
    · simp [parseCore, h0]
    · simp +decide [parseCore, h1]
    · simp +decide [parseCore, h1]

theorem jsonLoads_allSpace {s : String} (h : s.toList.all pyIsSpace = true) :
    jsonLoads s = none := by
  unfold jsonLoads
  rw [parseCore_allSpace _ _ h]

theorem pyStripList_empty {cs : List Char} (h : pyStripList cs = []) :
    cs.all pyIsSpace = true := by
  have h1 : (cs.dropWhile pyIsSpace).reverse.dropWhile pyIsSpace = [] := by
    have h0 := congrArg List.reverse h
    simpa [pyStripList] using h0
  have h2 : ∀ x ∈ cs.dropWhile pyIsSpace, pyIsSpace x := by
    intro x hx
    exact List.dropWhile_eq_nil_iff.mp h1 x (List.mem_reverse.mpr hx)
  rw [List.all_eq_true]
  intro x hx
  have hx2 : x ∈ cs.takeWhile pyIsSpace ++ cs.dropWhile pyIsSpace := by
    rw [List.takeWhile_append_dropWhile]
    exact hx
  rcases List.mem_append.mp hx2 with h3 | h3
  · exact List.mem_takeWhile_imp h3
  · exact h2 x h3

/-! ### Claim theorems: the Extractor (C8, C9, C4) -/

/-- C8: on the concrete input "Sure! Here's the data:" + newline + a
```json code fence containing an object with a trailing comma + closing
fence, the fast orchestrator's Extractor returns exactly
the mapping with the trailing comma repaired: the direct parse fails, the
first-brace/last-brace substring still fails, and the trailing-comma
repair then parses. -/
theorem c8_fenced_trailing_comma_repair :
    fastParseJson "Sure! Here\x27s the data:\n```json\n\x7b\"strengths\": [\"A\",\"B\",]\x7d\n```" =
      Json.obj [("strengths", Json.arr [Json.str "A", Json.str "B"])] := rfl

/-- C9: for every text input that is already valid JSON, the fast
orchestrator's Extractor returns exactly the structure obtained by
parsing that text (`json.loads` succeeds, the empty-input guard cannot
fire, and the parsed value is returned unchanged). -/
theorem c9_extract_roundtrip (s : String) (v : Json) (h : jsonLoads s = some v) :
    fastParseJson s = v := by
  have hne : ¬(s = "" ∨ pyStrip s = "") := by
    rintro (rfl | hs)
    · rw [show jsonLoads "" = none from rfl] at h
      cases h
    · have h2 : s.toList.all pyIsSpace = true := by
        refine pyStripList_empty ?_
        have h3 := congrArg String.data hs
        simpa [pyStrip] using h3
      rw [jsonLoads_allSpace h2] at h
      cases h
  unfold fastParseJson
  rw [if_neg hne, h]

/-- Witness for C9 at a concrete valid-JSON input. -/
theorem c9_extract_roundtrip_witness :
    jsonLoads "\x7b\"a\": [1, true]\x7d" =
      some (Json.obj [("a", Json.arr [Json.num (mkRat 1 1), Json.bool true])]) ∧
    fastParseJson "\x7b\"a\": [1, true]\x7d" =
      Json.obj [("a", Json.arr [Json.num (mkRat 1 1), Json.bool true])] :=
  ⟨rfl, c9_extract_roundtrip _ _ rfl⟩

/-- C4 counterexample: the claim says a failed extraction "returns the
supplied call-site default value unchanged", but the fast orchestrator's
Extractor (`FastMarketingOrchestrator._parse_json`) takes no default at
all: on plain prose with no braces it returns the input-dependent wrapper
object with key `raw_content` — in particular not the empty-object
default shape the claim's call sites would supply. -/
theorem c4_counterexample :
    fastParseJson "This response contains prose only." =
      Json.obj [("raw_content", Json.str "This response contains prose only.")] ∧
    Json.obj [("raw_content", Json.str "This response contains prose only.")] ≠ jEmptyObj := by
  refine ⟨rfl, ?_⟩
  intro h
  injection h with h1
  exact List.noConfusion h1

/-- C4 (amended): neither Extractor can raise (both are total functions of
the input text); the Evaluator's extractor returns the supplied default
unchanged whenever its parse fails, while the fast orchestrator's
extractor takes no default and, for non-blank text that does not parse
and contains no opening brace (plain prose), returns the wrapper object
`\x7b"raw_content": <input text>\x7d`. -/
theorem c4_extract_default_behavior (text : String) (fallback : Json) :
    (jsonLoads (fenceProcess text) = none → parseJsonResponse text fallback = fallback) ∧
    (text ≠ "" → pyStrip text ≠ "" → jsonLoads text = none →
      text.toList.findIdx? (fun c => c = braceOpen) = none →
      fastParseJson text = Json.obj [("raw_content", Json.str text)]) := by
  constructor
  · intro h
    unfold parseJsonResponse
    rw [h]
  · intro h1 h2 h3 h4
    unfold fastParseJson
    rw [if_neg (by tauto)]
    rw [h3]
    simp only [h4]

/-- Witness for C4 (amended) on concrete prose. -/
theorem c4_extract_default_behavior_witness :
    parseJsonResponse "We could not produce structured output." jEmptyObj = jEmptyObj ∧
    fastParseJson "We could not produce structured output." =
      Json.obj [("raw_content", Json.str "We could not produce structured output.")] :=
  ⟨(c4_extract_default_behavior _ jEmptyObj).1 rfl,
   (c4_extract_default_behavior _ jEmptyObj).2 (by decide) (by decide) rfl rfl⟩

/-! ### Claim theorems: the Provider Gateway (C3, C7) -/

/-- C3: for every message list and temperature, if the configured provider
is not the fallback (Ollama) and the primary call fails, `chat` makes
exactly one retry against Ollama with identical arguments, returns the
fallback's text on success, and on a double failure raises the single
aggregated error naming both failures; if the provider is Ollama itself,
its result (success or failure) is returned directly with no second
attempt. -/
theorem c3_chat_fallback (c : LLMClient) (net : LLMNet) (m : ChatMessages) (t : ℚ) :
    (c.provider ≠ "ollama" →
      ∀ e, (primaryDispatch c net m t).1 = Except.error e →
        ((LLMClient.chat c net m t).2 = (primaryDispatch c net m t).2 ++ [("ollama", m, t)] ∧
         (∀ s, net.ollama m t = Except.ok s → (LLMClient.chat c net m t).1 = Except.ok s) ∧
         (∀ f, net.ollama m t = Except.error f →
           (LLMClient.chat c net m t).1 =
             Except.error ("Both " ++ c.provider ++
               " and Ollama fallback failed. Primary error: " ++ e)))) ∧
    (c.provider = "ollama" →
      LLMClient.chat c net m t = (net.ollama m t, [("ollama", m, t)])) := by
  constructor
  · intro hno e he
    unfold LLMClient.chat
    cases hpd : primaryDispatch c net m t with
    | mk res tr =>
      rw [hpd] at he
      simp only at he
      subst he
      refine ⟨?_, ?_, ?_⟩
      · cases ho : net.ollama m t <;> simp [callOllama, ho, hno, hpd]
      · intro s hs
        simp [callOllama, hs, hno]
      · intro f hf
        simp [callOllama, hf, hno]
  · intro ho
    unfold LLMClient.chat
    have hpd : primaryDispatch c net m t = (net.ollama m t, [("ollama", m, t)]) := by
      simp [primaryDispatch, ho, callOllama]
    rw [hpd]
    cases hr : net.ollama m t with
    | ok s => rfl
    | error e => simp [ho]

/-- Witness for C3: a Groq-configured client whose network call fails and
whose Ollama fallback succeeds. -/
theorem c3_chat_fallback_witness :
    (LLMClient.chat ⟨"groq", "llama-3.1-8b-instant", "http://localhost", "k", "", ""⟩
        ⟨fun _ _ => Except.ok "fallback text", fun _ _ => Except.error "503",
         fun _ _ => Except.error "n/a", fun _ _ => Except.error "n/a"⟩
        [("user", "hi")] 1).2 =
      [("groq", [("user", "hi")], 1), ("ollama", [("user", "hi")], 1)] ∧
    (LLMClient.chat ⟨"groq", "llama-3.1-8b-instant", "http://localhost", "k", "", ""⟩
        ⟨fun _ _ => Except.ok "fallback text", fun _ _ => Except.error "503",
         fun _ _ => Except.error "n/a", fun _ _ => Except.error "n/a"⟩
        [("user", "hi")] 1).1 = Except.ok "fallback text" := by
  have h := (c3_chat_fallback
    ⟨"groq", "llama-3.1-8b-instant", "http://localhost", "k", "", ""⟩
    ⟨fun _ _ => Except.ok "fallback text", fun _ _ => Except.error "503",
     fun _ _ => Except.error "n/a", fun _ _ => Except.error "n/a"⟩
    [("user", "hi")] 1).1 (by decide) "503" rfl
  exact ⟨h.1, h.2.1 "fallback text" rfl⟩

/-- C7 counterexample: with provider `groq` selected and no credential in
the environment, Gateway construction does not raise any
`ConfigurationError` — `__init__`/`_validate_config` are total and only
produce a console warning; likewise an unknown provider name passes
construction without even a warning.  (The claim asserts a fatal error is
raised eagerly at construction.) -/
theorem c7_counterexample :
    LLMClient.ofEnv ⟨some "groq", none, none, none, none, none⟩ =
      ⟨"groq", "llama3.2", "http://host.docker.internal:11434", "", "", ""⟩ ∧
    validateConfigWarnings (LLMClient.ofEnv ⟨some "groq", none, none, none, none, none⟩) =
      ["⚠️  WARNING: GROQ_API_KEY not set, will fail on first request"] ∧
    validateConfigWarnings (LLMClient.ofEnv ⟨some "quantum", none, none, none, none, none⟩) =
      [] :=
  ⟨by decide, by decide, by decide⟩

/-- C7 (amended): a missing credential for the selected non-default
provider, or an unknown provider name, does not raise at Gateway
construction; construction succeeds (with at most a console warning) and
the resulting `ValueError` only surfaces inside the first `chat` call,
where it is treated like any primary failure: the Ollama fallback is
attempted, and an error reaches the caller only if the fallback also
fails (as the aggregated two-failure error). -/
theorem c7_config_surfaces_at_first_call (env : LLMEnv) (net : LLMNet)
    (m : ChatMessages) (t : ℚ) :
    ((LLMClient.ofEnv env).provider = "groq" → (LLMClient.ofEnv env).groqApiKey = "" →
      validateConfigWarnings (LLMClient.ofEnv env) =
        ["⚠️  WARNING: GROQ_API_KEY not set, will fail on first request"] ∧
      (primaryDispatch (LLMClient.ofEnv env) net m t).1 =
        Except.error "GROQ_API_KEY not set in environment variables" ∧
      (∀ s, net.ollama m t = Except.ok s →
        (LLMClient.chat (LLMClient.ofEnv env) net m t).1 = Except.ok s) ∧
      (∀ f, net.ollama m t = Except.error f →
        (LLMClient.chat (LLMClient.ofEnv env) net m t).1 =
          Except.error "Both groq and Ollama fallback failed. Primary error: GROQ_API_KEY not set in environment variables")) ∧
    ((LLMClient.ofEnv env).provider ∉
        (["ollama", "groq", "google", "gemini", "openrouter"] : List String) →
      validateConfigWarnings (LLMClient.ofEnv env) = [] ∧
      (primaryDispatch (LLMClient.ofEnv env) net m t).1 =
        Except.error ("Unknown LLM provider: " ++ (LLMClient.ofEnv env).provider)) := by
  constructor
  · intro hp hk
    have hpd : (primaryDispatch (LLMClient.ofEnv env) net m t).1 =
        Except.error "GROQ_API_KEY not set in environment variables" := by
      simp [primaryDispatch, hp, callGroq, hk]
    refine ⟨by simp [validateConfigWarnings, hp, hk], hpd, ?_, ?_⟩
    · intro s hs
      have h := (c3_chat_fallback (LLMClient.ofEnv env) net m t).1
        (by rw [hp]; decide) _ hpd
      exact h.2.1 s hs
    · intro f hf
      have h := (c3_chat_fallback (LLMClient.ofEnv env) net m t).1
        (by rw [hp]; decide) _ hpd
      rw [h.2.2 f hf, hp]
      exact congrArg Except.error (by decide)
  · intro hp
    simp only [List.mem_cons, List.mem_singleton, not_or] at hp
    obtain ⟨h1, h2, h3, h4, h5, -⟩ := hp
    constructor
    · simp [validateConfigWarnings, h2, h3, h4, h5]
    · simp [primaryDispatch, h1, h2, h3, h4, h5]

/-- Witness for C7 (amended): a concrete credential-less Groq environment
whose fallback also fails, and a concrete unknown-provider environment. -/
theorem c7_config_surfaces_at_first_call_witness :
    validateConfigWarnings (LLMClient.ofEnv ⟨some "groq", none, none, none, none, none⟩) =
      ["⚠️  WARNING: GROQ_API_KEY not set, will fail on first request"] ∧
    (LLMClient.chat (LLMClient.ofEnv ⟨some "groq", none, none, none, none, none⟩)
        ⟨fun _ _ => Except.error "conn refused", fun _ _ => Except.ok "never used",
         fun _ _ => Except.ok "never used", fun _ _ => Except.ok "never used"⟩
        [] 1).1 =
      Except.error "Both groq and Ollama fallback failed. Primary error: GROQ_API_KEY not set in environment variables" ∧
    (primaryDispatch (LLMClient.ofEnv ⟨some "quantum", none, none, none, none, none⟩)
        ⟨fun _ _ => Except.error "conn refused", fun _ _ => Except.ok "never used",
         fun _ _ => Except.ok "never used", fun _ _ => Except.ok "never used"⟩
        [] 1).1 =
      Except.error "Unknown LLM provider: quantum" := by
  refine ⟨?_, ?_, ?_⟩
  · exact (c7_config_surfaces_at_first_call ⟨some "groq", none, none, none, none, none⟩
      ⟨fun _ _ => Except.error "conn refused", fun _ _ => Except.ok "never used",
       fun _ _ => Except.ok "never used", fun _ _ => Except.ok "never used"⟩
      [] 1).1 rfl rfl |>.1
  · exact ((c7_config_surfaces_at_first_call ⟨some "groq", none, none, none, none, none⟩
      ⟨fun _ _ => Except.error "conn refused", fun _ _ => Except.ok "never used",
       fun _ _ => Except.ok "never used", fun _ _ => Except.ok "never used"⟩
      [] 1).1 rfl rfl).2.2.2 "conn refused" rfl
  · exact ((c7_config_surfaces_at_first_call ⟨some "quantum", none, none, none, none, none⟩
      ⟨fun _ _ => Except.error "conn refused", fun _ _ => Except.ok "never used",
       fun _ _ => Except.ok "never used", fun _ _ => Except.ok "never used"⟩
      [] 1).2 (by decide)).2

/-! ### Shape lemmas for the fast orchestrator's phases -/

theorem jIsNull_obj (l : List (String × Json)) : jIsNull (Json.obj l) = false := rfl

theorem jIsNull_false_of_pyGet_ok {d : Json} {k : String} {dflt v : Json}
    (h : pyGet d k dflt = Except.ok v) : jIsNull d = false := by
  obtain ⟨l, rfl, _⟩ := pyGet_ok_elim h
  rfl

theorem pyGet_nonNull_of_lookup {d : Json} {k : String} {v : Json}
    (hget : pyGet d k jEmptyObj = Except.ok v)
    (hcond : ∀ w, jLookup d k = some w → jIsNull w = false) :
    jIsNull v = false := by
  obtain ⟨l, rfl, hv⟩ := pyGet_ok_elim hget
  cases hf : jFind l k with
  | some w =>
    have hw := hcond w (by simpa [jLookup] using hf)
    rw [hv, hf]
    exact hw
  | none =>
    rw [hv, hf]
    rfl

/-- Whenever `_research_phase` returns, its result is the two-fragment
research aggregate built from the first two oracle calls. -/
theorem researchPhase_ok_shape {oracle : Nat → Except String String} {pd r : Json}
    (h : researchPhase oracle pd = Except.ok r) :
    r = Json.obj [("market_intelligence", fastParseJson (genText (oracle 0))),
                  ("swot", fastParseJson (genText (oracle 1)))] := by
  cases pd with
  | obj members =>
    simp only [researchPhase, pyGet, Bind.bind, Except.bind, Except.ok.injEq] at h
    exact h.symm
  | null => simp [researchPhase, pyGet, Bind.bind, Except.bind] at h
  | bool b => simp [researchPhase, pyGet, Bind.bind, Except.bind] at h
  | num q => simp [researchPhase, pyGet, Bind.bind, Except.bind] at h
  | str s => simp [researchPhase, pyGet, Bind.bind, Except.bind] at h
  | arr elems => simp [researchPhase, pyGet, Bind.bind, Except.bind] at h

/-- Whenever `_strategy_phase` returns, its result is the six-fragment
strategy aggregate built from oracle calls 2–7. -/
theorem strategyPhase_ok_shape {oracle : Nat → Except String String}
    {pd research s : Json} (h : strategyPhase oracle pd research = Except.ok s) :
    s = Json.obj [("positioning", fastParseJson (genText (oracle 2))),
                  ("goals", fastParseJson (genText (oracle 3))),
                  ("marketing_mix", fastParseJson (genText (oracle 4))),
                  ("action_plan", fastParseJson (genText (oracle 5))),
                  ("budget_monitoring", fastParseJson (genText (oracle 6))),
                  ("risks_launch", fastParseJson (genText (oracle 7)))] := by
  cases pd with
  | obj members =>
    simp only [strategyPhase, pyGet, Bind.bind, Except.bind, Except.ok.injEq] at h
    cases hjd : joinOrVarious ((jFind members "distribution_channels").getD (Json.arr [])) with
    | error e => simp [hjd] at h
    | ok sd =>
      cases hjm : joinOrVarious ((jFind members "marketing_channels").getD (Json.arr [])) with
      | error e => simp [hjd, hjm] at h
      | ok sm =>
        simp only [hjd, hjm, Bind.bind, Except.bind, Except.ok.injEq] at h
        exact h.symm
  | null => simp [strategyPhase, pyGet, Bind.bind, Except.bind] at h
  | bool b => simp [strategyPhase, pyGet, Bind.bind, Except.bind] at h
  | num q => simp [strategyPhase, pyGet, Bind.bind, Except.bind] at h
  | str s2 => simp [strategyPhase, pyGet, Bind.bind, Except.bind] at h
  | arr elems => simp [strategyPhase, pyGet, Bind.bind, Except.bind] at h

/-- Whenever `_compile_plan` returns a document built from the research
and strategy aggregates, its `sections` mapping carries exactly the 12
fixed identifiers with string titles and descriptions, and every
`content` is non-null provided the directly-embedded fragments (`swot`,
`marketing_mix`, `action_plan`) are non-null and the `monitoring` /
`launch_strategy` entries, when present in their fragments, are non-null.
(All of these hold for every fallback default, which is a JSON object.) -/
theorem compilePlan_sections_ok {pd mi sw pos go mix act bud rl : Json}
    {now : String} {plan : Json}
    (hsw : jIsNull sw = false) (hmix : jIsNull mix = false)
    (hact : jIsNull act = false)
    (hmon : ∀ v, jLookup bud "monitoring" = some v → jIsNull v = false)
    (hls : ∀ v, jLookup rl "launch_strategy" = some v → jIsNull v = false)
    (h : compilePlan pd
          (Json.obj [("market_intelligence", mi), ("swot", sw)])
          (Json.obj [("positioning", pos), ("goals", go), ("marketing_mix", mix),
                     ("action_plan", act), ("budget_monitoring", bud),
                     ("risks_launch", rl)])
          now = Except.ok plan) :
    sectionsWellFormed plan = true := by
  unfold compilePlan at h
  obtain ⟨pn, hpn, h⟩ := exceptBind_ok.mp h
  obtain ⟨mi', hmi, h⟩ := exceptBind_ok.mp h
  obtain ⟨sw', hsw', h⟩ := exceptBind_ok.mp h
  obtain ⟨pos', hpos, h⟩ := exceptBind_ok.mp h
  obtain ⟨go', hgo, h⟩ := exceptBind_ok.mp h
  obtain ⟨mix', hmix', h⟩ := exceptBind_ok.mp h
  obtain ⟨act', hact', h⟩ := exceptBind_ok.mp h
  obtain ⟨bud', hbud, h⟩ := exceptBind_ok.mp h
  obtain ⟨rl', hrl, h⟩ := exceptBind_ok.mp h
  obtain ⟨vp, hvp, h⟩ := exceptBind_ok.mp h
  obtain ⟨pdesc, hpdesc, h⟩ := exceptBind_ok.mp h
  obtain ⟨gv, hgv, h⟩ := exceptBind_ok.mp h
  obtain ⟨objs, hobjs, h⟩ := exceptBind_ok.mp h
  obtain ⟨sov, hsov, h⟩ := exceptBind_ok.mp h
  obtain ⟨bmb, hbmb, h⟩ := exceptBind_ok.mp h
  obtain ⟨roiV, hroi, h⟩ := exceptBind_ok.mp h
  obtain ⟨tm, htm, h⟩ := exceptBind_ok.mp h
  obtain ⟨mis, hmis, h⟩ := exceptBind_ok.mp h
  obtain ⟨vis, hvis, h⟩ := exceptBind_ok.mp h
  obtain ⟨uspsV, husps, h⟩ := exceptBind_ok.mp h
  obtain ⟨bp, hbp, h⟩ := exceptBind_ok.mp h
  obtain ⟨cs, hcs, h⟩ := exceptBind_ok.mp h
  obtain ⟨ms, hms, h⟩ := exceptBind_ok.mp h
  obtain ⟨gr, hgr, h⟩ := exceptBind_ok.mp h
  obtain ⟨trV, htr, h⟩ := exceptBind_ok.mp h
  obtain ⟨compV, hcomp, h⟩ := exceptBind_ok.mp h
  obtain ⟨pest, hpest, h⟩ := exceptBind_ok.mp h
  obtain ⟨mo, hmo, h⟩ := exceptBind_ok.mp h
  obtain ⟨td, htd, h⟩ := exceptBind_ok.mp h
  obtain ⟨tp, htp, h⟩ := exceptBind_ok.mp h
  obtain ⟨ps, hps, h⟩ := exceptBind_ok.mp h
  obtain ⟨pv, hpv, h⟩ := exceptBind_ok.mp h
  obtain ⟨msg, hmsg, h⟩ := exceptBind_ok.mp h
  obtain ⟨gl, hgl, h⟩ := exceptBind_ok.mp h
  obtain ⟨kp, hkp, h⟩ := exceptBind_ok.mp h
  obtain ⟨bmm, hbmm, h⟩ := exceptBind_ok.mp h
  obtain ⟨rsk, hrsk, h⟩ := exceptBind_ok.mp h
  obtain ⟨lsV, hlsV, h⟩ := exceptBind_ok.mp h
  injection h with hplan
  have hmiE : mi' = mi := by
    simpa [pyGet, jFind] using hmi.symm
  have hswE : sw' = sw := by
    simpa [pyGet, jFind] using hsw'.symm
  have hposE : pos' = pos := by
    simpa [pyGet, jFind] using hpos.symm
  have hgoE : go' = go := by
    simpa [pyGet, jFind] using hgo.symm
  have hmixE : mix' = mix := by
    simpa [pyGet, jFind] using hmix'.symm
  have hactE : act' = act := by
    simpa [pyGet, jFind] using hact'.symm
  have hbudE : bud' = bud := by
    simpa [pyGet, jFind] using hbud.symm
  have hrlE : rl' = rl := by
    simpa [pyGet, jFind] using hrl.symm
  subst hmiE hswE hposE hgoE hmixE hactE hbudE hrlE
  have hbmbNN : jIsNull bmb = false := jIsNull_false_of_pyGet_ok hroi
  have hbmmNN : jIsNull bmm = false := pyGet_nonNull_of_lookup hbmm hmon
  have hlsNN : jIsNull lsV = false := pyGet_nonNull_of_lookup hlsV hls
  subst hplan
  simp [sectionsWellFormed, sectionIds, sectionOk, isStrVal, nonNullVal, jLookup,
    jFind, hsw, hmix, hact, hbmbNN, hbmmNN, hlsNN, jIsNull_obj]

/-- C1 counterexample: the claim covers both cited compile routines, but
the document compiled by `MarketingPlanOrchestrator._compile_final_plan`
has sections carrying only `title` and `content` — on a concrete run its
`1_executive_summary` section has no `description` key at all, so "every
section entry contains non-null title, description, and content" is
false for that orchestrator. -/
theorem c1_counterexample :
    ((compileFinalPlan (Json.obj [("product_name", Json.str "EcoBottle")])
        jEmptyObj jEmptyObj jEmptyObj 0 "2026-01-01T00:00:00").toOption.bind
      (fun p => (jLookup p "sections").bind
        (fun secs => (jLookup secs "1_executive_summary").map
          (fun sec => jLookup sec "description")))) = some none := rfl

/-- C1 (amended): whenever the fast orchestrator's
`generate_marketing_plan` returns a document (for any attribute set and
any LLM outcomes), the document's `sections` mapping has exactly the 12
fixed, caller-independent identifiers in their fixed order, each entry
with a string `title`, a string `description`, and a non-null `content` —
provided the `swot`, `marketing_mix` and `action_plan` fragments decoded
from the LLM are non-null and the `monitoring` / `launch_strategy`
entries, when present in their fragments, are non-null (every Extractor
fallback value is a JSON object, so all fallback paths satisfy this). -/
theorem c1_fast_sections_wellformed (oracle : Nat → Except String String)
    (pd : Json) (auto : Bool) (now : String)
    (hsw : jIsNull (fastParseJson (genText (oracle 1))) = false)
    (hmix : jIsNull (fastParseJson (genText (oracle 4))) = false)
    (hact : jIsNull (fastParseJson (genText (oracle 5))) = false)
    (hmon : ∀ v, jLookup (fastParseJson (genText (oracle 6))) "monitoring" = some v →
      jIsNull v = false)
    (hls : ∀ v, jLookup (fastParseJson (genText (oracle 7))) "launch_strategy" = some v →
      jIsNull v = false) :
    exceptAll sectionsWellFormed (generateMarketingPlanFast oracle pd auto now) = true := by
  unfold generateMarketingPlanFast
  cases hr : researchPhase oracle pd with
  | error e => simp [exceptAll, Bind.bind, Except.bind, hr]
  | ok r =>
    cases hs : strategyPhase oracle pd r with
    | error e => simp [exceptAll, Bind.bind, Except.bind, hr, hs]
    | ok s =>
      have hrs := researchPhase_ok_shape hr
      have hss := strategyPhase_ok_shape hs
      subst hrs
      subst hss
      cases hc : compilePlan pd
          (Json.obj [("market_intelligence", fastParseJson (genText (oracle 0))),
                     ("swot", fastParseJson (genText (oracle 1)))])
          (Json.obj [("positioning", fastParseJson (genText (oracle 2))),
                     ("goals", fastParseJson (genText (oracle 3))),
                     ("marketing_mix", fastParseJson (genText (oracle 4))),
                     ("action_plan", fastParseJson (genText (oracle 5))),
                     ("budget_monitoring", fastParseJson (genText (oracle 6))),
                     ("risks_launch", fastParseJson (genText (oracle 7)))])
          now with
      | error e => simp [exceptAll, Bind.bind, Except.bind, hr, hs, hc]
      | ok plan =>
        have hwf := compilePlan_sections_ok hsw hmix hact hmon hls hc
        simp [exceptAll, Bind.bind, Except.bind, hr, hs, hc, hwf]

/-- Witness for C1 (amended): every LLM call fails, every fragment falls
back, and the returned document still carries the 12 well-formed
sections. -/
theorem c1_fast_sections_wellformed_witness :
    exceptAll sectionsWellFormed
      (generateMarketingPlanFast (fun _ => Except.error "conn refused")
        (Json.obj [("product_name", Json.str "EcoBottle")]) false
        "2026-01-01T00:00:00") = true :=
  c1_fast_sections_wellformed _ _ _ _ rfl rfl rfl
    (fun _ h => Option.noConfusion h) (fun _ h => Option.noConfusion h)

/-! ### Claim theorem: provider-failure absorption (C2) -/

theorem jFind_some_mem :
    ∀ (l : List (String × Json)) (k : String) (v : Json),
      jFind l k = some v → (k, v) ∈ l := by
  intro l
  induction l with
  | nil => intro k v h; cases h
  | cons kv rest ih =>
    intro k v h
    obtain ⟨k1, v1⟩ := kv
    by_cases hk : k1 = k
    · rw [jFind_cons, if_pos hk] at h
      injection h with h1
      subst hk
      subst h1
      exact List.mem_cons_self _ _
    · rw [jFind_cons, if_neg hk] at h
      exact List.mem_cons_of_mem _ (ih k v h)

theorem pyJoinParts_all_str :
    ∀ elems : List Json, elems.all jIsStr = true →
      ∃ parts, pyJoinParts elems = Except.ok parts := by
  intro elems
  induction elems with
  | nil => intro _; exact ⟨[], rfl⟩
  | cons e rest ih =>
    intro h
    simp only [List.all_cons, Bool.and_eq_true] at h
    cases e with
    | str s =>
      obtain ⟨parts, hp⟩ := ih h.2
      exact ⟨s :: parts, by simp [pyJoinParts, hp, Bind.bind, Except.bind]⟩
    | null => cases h.1
    | bool b => cases h.1
    | num q => cases h.1
    | arr l => cases h.1
    | obj l => cases h.1

theorem attrOk_joinOrVarious (v : Json) (h : attrOk v = true) :
    ∃ s, joinOrVarious v = Except.ok s := by
  unfold joinOrVarious
  by_cases ht : jTruthy v = true
  · rw [if_pos ht]
    cases v with
    | str s => exact ⟨_, rfl⟩
    | null => cases ht
    | arr elems =>
      obtain ⟨parts, hp⟩ := pyJoinParts_all_str elems (by simpa [attrOk] using h)
      refine ⟨String.intercalate ", " parts, ?_⟩
      simp [pyJoin, hp, Bind.bind, Except.bind]
    | bool b => cases h
    | num q => cases h
    | obj l => cases h
  · rw [if_neg ht]
    exact ⟨"Various channels", rfl⟩

theorem validAttr_getD_arr (members : List (String × Json)) (k : String)
    (hv : validAttrSet (Json.obj members) = true) :
    attrOk ((jFind members k).getD (Json.arr [])) = true := by
  cases hf : jFind members k with
  | none => rfl
  | some v =>
    have hm := jFind_some_mem members k v hf
    have hv2 : members.all (fun kv => attrOk kv.2) = true := hv
    have hall := List.all_eq_true.mp hv2 (k, v) hm
    simpa using hall

/-- On a dict-shaped attribute set, `_research_phase` always succeeds,
returning the two parsed fragments. -/
theorem researchPhase_obj (oracle : Nat → Except String String)
    (members : List (String × Json)) :
    researchPhase oracle (Json.obj members) =
      Except.ok (Json.obj [
        ("market_intelligence", fastParseJson (genText (oracle 0))),
        ("swot", fastParseJson (genText (oracle 1)))]) := rfl

/-- On a valid attribute set, `_strategy_phase` always succeeds,
returning the six parsed fragments. -/
theorem strategyPhase_ok_of_valid (oracle : Nat → Except String String)
    (members : List (String × Json)) (research : Json)
    (hv : validAttrSet (Json.obj members) = true) :
    strategyPhase oracle (Json.obj members) research =
      Except.ok (Json.obj [
        ("positioning", fastParseJson (genText (oracle 2))),
        ("goals", fastParseJson (genText (oracle 3))),
        ("marketing_mix", fastParseJson (genText (oracle 4))),
        ("action_plan", fastParseJson (genText (oracle 5))),
        ("budget_monitoring", fastParseJson (genText (oracle 6))),
        ("risks_launch", fastParseJson (genText (oracle 7)))]) := by
  obtain ⟨sd, hsd⟩ := attrOk_joinOrVarious _ (validAttr_getD_arr members "distribution_channels" hv)
  obtain ⟨sm, hsm⟩ := attrOk_joinOrVarious _ (validAttr_getD_arr members "marketing_channels" hv)
  simp [strategyPhase, pyGet, Bind.bind, Except.bind, hsd, hsm]

/-- With every fragment at its Extractor-default empty object, the fast
compile step succeeds on any dict-shaped attribute set and the resulting
document passes the sections checker. -/
theorem compilePlan_allDefaults_ok (members : List (String × Json)) (now : String) :
    ∃ plan,
      compilePlan (Json.obj members)
        (Json.obj [("market_intelligence", Json.obj []), ("swot", Json.obj [])])
        (Json.obj [("positioning", Json.obj []), ("goals", Json.obj []),
                   ("marketing_mix", Json.obj []), ("action_plan", Json.obj []),
                   ("budget_monitoring", Json.obj []), ("risks_launch", Json.obj [])])
        now = Except.ok plan ∧
      sectionsWellFormed plan = true :=
  ⟨_, rfl, rfl⟩

/-- C2: a failure of both the primary and fallback provider calls for an
individual prompt is absorbed at the call site — `_generate` turns any
chat exception into the structural default text — and even with every
call failing the run still produces a complete 12-section document;
whereas any exception raised during the compile step (which issues no
network calls) is returned to the caller of `generate_marketing_plan`
unchanged. -/
theorem c2_provider_failure_absorbed :
    (∀ e : String, genText (Except.error e) = "\x7b\x7d") ∧
    (∀ (oracle : Nat → Except String String) (pd : Json) (now : String),
      validAttrSet pd = true → (∀ i, ∃ e, oracle i = Except.error e) →
      ∃ plan, generateMarketingPlanFast oracle pd false now = Except.ok plan ∧
        sectionsWellFormed plan = true) ∧
    (∀ (oracle : Nat → Except String String) (pd : Json) (auto : Bool) (now : String)
        (r s : Json) (e : PyErr),
      researchPhase oracle pd = Except.ok r →
      strategyPhase oracle pd r = Except.ok s →
      compilePlan pd r s now = Except.error e →
      generateMarketingPlanFast oracle pd auto now = Except.error e) := by
  refine ⟨fun e => rfl, ?_, ?_⟩
  · intro oracle pd now hv hfail
    have hobj : ∃ members, pd = Json.obj members := by
      cases pd with
      | obj members => exact ⟨members, rfl⟩
      | null => cases hv
      | bool b => cases hv
      | num q => cases hv
      | str s => cases hv
      | arr l => cases hv
    obtain ⟨members, rfl⟩ := hobj
    obtain ⟨e0, h0⟩ := hfail 0
    obtain ⟨e1, h1⟩ := hfail 1
    obtain ⟨e2, h2⟩ := hfail 2
    obtain ⟨e3, h3⟩ := hfail 3
    obtain ⟨e4, h4⟩ := hfail 4
    obtain ⟨e5, h5⟩ := hfail 5
    obtain ⟨e6, h6⟩ := hfail 6
    obtain ⟨e7, h7⟩ := hfail 7
    have hr := researchPhase_obj oracle members
    rw [h0, h1] at hr
    have hs := strategyPhase_ok_of_valid oracle members
      (Json.obj [("market_intelligence", Json.obj []), ("swot", Json.obj [])]) hv
    rw [h2, h3, h4, h5, h6, h7] at hs
    obtain ⟨plan, hcp, hwf⟩ := compilePlan_allDefaults_ok members now
    refine ⟨plan, ?_, hwf⟩
    have hp0 : fastParseJson (genText (Except.error e0)) = Json.obj [] := rfl
    have hp1 : fastParseJson (genText (Except.error e1)) = Json.obj [] := rfl
    have hp2 : fastParseJson (genText (Except.error e2)) = Json.obj [] := rfl
    have hp3 : fastParseJson (genText (Except.error e3)) = Json.obj [] := rfl
    have hp4 : fastParseJson (genText (Except.error e4)) = Json.obj [] := rfl
    have hp5 : fastParseJson (genText (Except.error e5)) = Json.obj [] := rfl
    have hp6 : fastParseJson (genText (Except.error e6)) = Json.obj [] := rfl
    have hp7 : fastParseJson (genText (Except.error e7)) = Json.obj [] := rfl
    rw [hp2, hp3, hp4, hp5, hp6, hp7] at hs
    rw [hp0, hp1] at hr
    show (researchPhase oracle (Json.obj members) >>= fun research =>
        strategyPhase oracle (Json.obj members) research >>= fun strategy =>
        compilePlan (Json.obj members) research strategy now) = Except.ok plan
    rw [hr, ok_bind]
    show (strategyPhase oracle (Json.obj members)
        (Json.obj [("market_intelligence", Json.obj []), ("swot", Json.obj [])]) >>=
      fun strategy =>
        compilePlan (Json.obj members)
          (Json.obj [("market_intelligence", Json.obj []), ("swot", Json.obj [])])
          strategy now) = Except.ok plan
    rw [hs, ok_bind]
    exact hcp
  · intro oracle pd auto now r s e hr hs hc
    show (researchPhase oracle pd >>= fun research =>
        strategyPhase oracle pd research >>= fun strategy =>
        compilePlan pd research strategy now) = Except.error e
    rw [hr, ok_bind]
    show (strategyPhase oracle pd r >>= fun strategy =>
        compilePlan pd r strategy now) = Except.error e
    rw [hs, ok_bind]
    exact hc

/-- Witness for C2: (i) one absorbed failure; (ii) an all-failures run
that still returns a well-formed document; (iii) a run whose compile step
raises `TypeError` (a malformed `goals` fragment), and that error reaches
the caller unchanged. -/
theorem c2_provider_failure_absorbed_witness :
    genText (Except.error "timeout") = "\x7b\x7d" ∧
    (∃ plan, generateMarketingPlanFast (fun _ => Except.error "conn")
        (Json.obj [("product_name", Json.str "EcoBottle")]) false "T" = Except.ok plan ∧
      sectionsWellFormed plan = true) ∧
    generateMarketingPlanFast
        (fun i => if i = 3 then Except.ok "\x7b\"goals\": 5\x7d" else Except.error "conn")
        (Json.obj [("product_name", Json.str "EcoBottle")]) false "T" =
      Except.error PyErr.typeError :=
  ⟨c2_provider_failure_absorbed.1 "timeout",
   c2_provider_failure_absorbed.2.1 _ _ "T" rfl (fun _ => ⟨"conn", rfl⟩),
   c2_provider_failure_absorbed.2.2
     (fun i => if i = 3 then Except.ok "\x7b\"goals\": 5\x7d" else Except.error "conn")
     (Json.obj [("product_name", Json.str "EcoBottle")]) false "T"
     (Json.obj [("market_intelligence", Json.obj []), ("swot", Json.obj [])])
     (Json.obj [("positioning", Json.obj []),
       ("goals", Json.obj [("goals", Json.num (mkRat 5 1))]),
       ("marketing_mix", Json.obj []), ("action_plan", Json.obj []),
       ("budget_monitoring", Json.obj []), ("risks_launch", Json.obj [])])
     PyErr.typeError rfl rfl rfl⟩

/-! ### Claim theorem: the auto-iterate contract (C5) -/

/-- Does the plan's `metadata.version` equal `"1.1"`? -/
def versionCheck (plan : Json) : Bool :=
  match jLookup plan "metadata" with
  | some md =>
    match jLookup md "version" with
    | some (Json.str v) => v == "1.1"
    | _ => false
  | none => false

/-- The amended C5 run property: the executed-phase trace is exactly
research, strategy, evaluate, strategy, evaluate, compile — the strategy
and evaluation phases ran once more, the compile step exactly once — and
the compiled document's `metadata.version` is `"1.1"`. -/
def c5Check (pt : Json × List String) : Bool :=
  (pt.2 == ["research", "strategy", "evaluate", "strategy", "evaluate", "compile"]) &&
    versionCheck pt.1

/-- Whenever `_compile_final_plan` returns, the document's
`metadata.version` is the string `"1." ++ iterations`. -/
theorem compileFinalPlan_version {pd r s e : Json} {its : Nat} {now : String}
    {plan : Json} (h : compileFinalPlan pd r s e its now = Except.ok plan) :
    (jLookup plan "metadata").bind (fun md => jLookup md "version") =
      some (Json.str ("1." ++ toString its)) := by
  unfold compileFinalPlan at h
  obtain ⟨pn, hpn, h⟩ := exceptBind_ok.mp h
  obtain ⟨qs, hqs, h⟩ := exceptBind_ok.mp h
  obtain ⟨s1, hs1, h⟩ := exceptBind_ok.mp h
  obtain ⟨s2, hs2, h⟩ := exceptBind_ok.mp h
  obtain ⟨s3, hs3, h⟩ := exceptBind_ok.mp h
  obtain ⟨s4, hs4, h⟩ := exceptBind_ok.mp h
  obtain ⟨s5, hs5, h⟩ := exceptBind_ok.mp h
  obtain ⟨s6, hs6, h⟩ := exceptBind_ok.mp h
  obtain ⟨s7, hs7, h⟩ := exceptBind_ok.mp h
  obtain ⟨s8, hs8, h⟩ := exceptBind_ok.mp h
  obtain ⟨s9, hs9, h⟩ := exceptBind_ok.mp h
  obtain ⟨s10, hs10, h⟩ := exceptBind_ok.mp h
  obtain ⟨s11, hs11, h⟩ := exceptBind_ok.mp h
  obtain ⟨s12, hs12, h⟩ := exceptBind_ok.mp h
  obtain ⟨ov, hov, h⟩ := exceptBind_ok.mp h
  obtain ⟨crs, hcrs, h⟩ := exceptBind_ok.mp h
  obtain ⟨st, hst, h⟩ := exceptBind_ok.mp h
  obtain ⟨wk, hwk, h⟩ := exceptBind_ok.mp h
  obtain ⟨rec, hrec, h⟩ := exceptBind_ok.mp h
  injection h with hplan
  subst hplan
  simp [jLookup, jFind]

theorem versionCheck_true {plan : Json}
    (h : (jLookup plan "metadata").bind (fun md => jLookup md "version") =
      some (Json.str "1.1")) : versionCheck plan = true := by
  cases hm : jLookup plan "metadata" with
  | none => rw [hm] at h; cases h
  | some md =>
    rw [hm] at h
    have h2 : jLookup md "version" = some (Json.str "1.1") := h
    simp [versionCheck, hm, h2]

/-- C5 (amended): in the full orchestrator, when `auto_iterate` is set and
the evaluation's overall score is below 8.0 (with `max_iterations = 1`),
the strategy and evaluation phases run exactly once more — on a copy of
the attribute set with `_improvement_notes` attached — while the compile
step runs a single time, after the iteration, and the returned document's
`metadata.version` is `"1.1"`; the fast orchestrator accepts the
`auto_iterate` flag but ignores it entirely. -/
theorem c5_auto_iterate (researchFn : Json → Json) (strategyFn : Json → Json → Json)
    (evalFn : Json → Json → Json → Json) (pd : Json) (now : String) (q : ℚ)
    (hscore : pyGet (evalFn pd (researchFn pd) (strategyFn pd (researchFn pd)))
      "overall_score" (Json.num 0) = Except.ok (Json.num q))
    (hq : q < 8) :
    exceptAll c5Check
      (generateMarketingPlanFull researchFn strategyFn evalFn pd true 1 now) = true ∧
    (∀ (oracle : Nat → Except String String) (pd2 : Json) (now2 : String),
      generateMarketingPlanFast oracle pd2 true now2 =
        generateMarketingPlanFast oracle pd2 false now2) := by
  refine ⟨?_, fun _ _ _ => rfl⟩
  unfold generateMarketingPlanFull
  simp only [if_true, Bind.bind, Except.bind, hscore]
  have hlt : pyLtEight (Json.num q) = Except.ok true := by
    simp [pyLtEight, hq]
  simp only [hlt]
  rw [if_pos (by simp : True ∧ 0 < 1)]
  cases hit : iterateStrategy strategyFn pd (researchFn pd)
      (evalFn pd (researchFn pd) (strategyFn pd (researchFn pd))) with
  | error e => simp [exceptAll, Bind.bind, Except.bind, hit]
  | ok s2 =>
    cases hcp : compileFinalPlan pd (researchFn pd) s2
        (evalFn pd (researchFn pd) s2) 1 now with
    | error e => simp [exceptAll, Bind.bind, Except.bind, hit, hcp]
    | ok plan =>
      have hv := versionCheck_true (by simpa using compileFinalPlan_version hcp)
      simp [exceptAll, Bind.bind, Except.bind, hit, hcp, c5Check, hv]

/-- Witness for C5 (amended): concrete agents with evaluation score 6. -/
theorem c5_auto_iterate_witness :
    ((6 : ℚ) < 8) ∧
    exceptAll c5Check
      (generateMarketingPlanFull (fun _ => jEmptyObj) (fun _ _ => jEmptyObj)
        (fun _ _ _ => Json.obj [("overall_score", Json.num 6)])
        (Json.obj [("product_name", Json.str "EcoBottle")]) true 1 "T") = true :=
  ⟨by norm_num,
   (c5_auto_iterate (fun _ => jEmptyObj) (fun _ _ => jEmptyObj)
      (fun _ _ _ => Json.obj [("overall_score", Json.num 6)])
      (Json.obj [("product_name", Json.str "EcoBottle")]) "T" 6 rfl
      (by norm_num)).1⟩

/-- C5 counterexample: the claim says the strategy **and compile** phases
run "exactly once more" and that the fast orchestrator honours
`auto_iterate`.  On a concrete iterating run of the full orchestrator the
compile phase executes exactly once (the strategy phase does run twice),
and the fast orchestrator's output is bit-for-bit independent of
`auto_iterate`, its `metadata.version` being the constant `"fast_v1"`
that reflects no iteration. -/
theorem c5_counterexample :
    (generateMarketingPlanFull (fun _ => jEmptyObj) (fun _ _ => jEmptyObj)
        (fun _ _ _ => Json.obj [("overall_score", Json.num 6)])
        (Json.obj [("product_name", Json.str "EcoBottle")]) true 1 "T").map
      (fun pt => (pt.2.count "compile", pt.2.count "strategy")) = Except.ok (1, 2) ∧
    generateMarketingPlanFast (fun _ => Except.error "conn")
        (Json.obj [("product_name", Json.str "EcoBottle")]) true "T" =
      generateMarketingPlanFast (fun _ => Except.error "conn")
        (Json.obj [("product_name", Json.str "EcoBottle")]) false "T" ∧
    (generateMarketingPlanFast (fun _ => Except.error "conn")
        (Json.obj [("product_name", Json.str "EcoBottle")]) true "T").toOption.bind
      (fun p => (jLookup p "metadata").bind (fun md => jLookup md "version")) =
      some (Json.str "fast_v1") :=
  ⟨rfl, rfl, rfl⟩

theorem pySumFrom_map_num (qs : List ℚ) :
    ∀ acc : ℚ, pySumFrom acc (qs.map Json.num) = Except.ok (acc + qs.sum) := by
  induction qs with
  | nil =>
    intro acc
    simp [pySumFrom]
  | cons q rest ih =>
    intro acc
    have h2 := ih (acc + q)
    rw [add_assoc] at h2
    simpa [pySumFrom] using h2

theorem pySumNums_map_num (qs : List ℚ) :
    pySumNums (qs.map Json.num) = Except.ok qs.sum := by
  have h := pySumFrom_map_num qs 0
  simpa [pySumNums] using h

/-- C6 counterexample: the fast-mode evaluation block embedded in every
fast-compiled document carries `overall_score = 7.5`, but the arithmetic
mean of its own six fixed criterion scores (7.5, 7.5, 7.0, 8.0, 7.0, 8.5)
is 91/12 ≈ 7.583, so in this pipeline-produced evaluation block the
overall score is not the mean of the criterion scores. -/
theorem c6_counterexample :
    jLookup fastEvaluationBlock "overall_score" = some (Json.num (15/2)) ∧
    jLookup fastEvaluationBlock "criterion_scores" = some (Json.obj [
      ("consistency", Json.num (15/2)), ("quality", Json.num (15/2)),
      ("originality", Json.num 7), ("feasibility", Json.num 8),
      ("completeness", Json.num 7), ("ethics", Json.num (17/2))]) ∧
    overallScore [("consistency", Json.num (15/2)), ("quality", Json.num (15/2)),
      ("originality", Json.num 7), ("feasibility", Json.num 8),
      ("completeness", Json.num 7), ("ethics", Json.num (17/2))] =
      Except.ok (91/12) ∧
    (15/2 : ℚ) ≠ (91/12 : ℚ) := by
  refine ⟨rfl, rfl, ?_, by norm_num⟩
  have h := pySumNums_map_num [15/2, 15/2, 7, 8, 7, (17/2 : ℚ)]
  unfold overallScore
  rw [show ([("consistency", Json.num (15/2)), ("quality", Json.num (15/2)),
      ("originality", Json.num 7), ("feasibility", Json.num 8),
      ("completeness", Json.num 7), ("ethics", Json.num (17/2))].map (·.2)) =
    ([15/2, 15/2, 7, 8, 7, (17/2 : ℚ)].map Json.num) from rfl, h]
  show Except.ok _ = _
  norm_num

/-- C6 (amended): in the Evaluator proper, `overall_score` equals the
arithmetic mean of the criterion scores exactly as extracted from the
parsed scoring response (7.0 substituted for malformed entries), with no
clamping of any kind; the fast-mode placeholder block instead carries
fixed constants whose overall score is not that mean. -/
theorem c6_overall_is_unclamped_mean (response : String)
    (scores : List (String × Json)) (qs : List ℚ)
    (h : evaluateCriteria response = Except.ok scores)
    (hnum : scores.map (·.2) = qs.map Json.num)
    (hne : scores ≠ []) :
    evaluateOverall response = Except.ok (qs.sum / (scores.length : ℚ)) := by
  have hlen : scores.length ≠ 0 := by
    simpa [List.length_eq_zero] using hne
  unfold evaluateOverall
  rw [h]
  show overallScore scores = _
  unfold overallScore
  rw [hnum, pySumNums_map_num]
  show (if scores.length = 0 then Except.error PyErr.zeroDiv
    else Except.ok (qs.sum / (scores.length : ℚ))) = _
  rw [if_neg hlen]

/-- Witness for C6 (amended): a concrete scoring response whose six
criterion scores are all 22 — the overall score is their (unclamped) mean
22, which exceeds the supposed [0,10] clamp. -/
theorem c6_overall_is_unclamped_mean_witness :
    evaluateOverall "\x7b\"consistency\": \x7b\"score\": 22\x7d, \"quality\": \x7b\"score\": 22\x7d, \"originality\": \x7b\"score\": 22\x7d, \"feasibility\": \x7b\"score\": 22\x7d, \"completeness\": \x7b\"score\": 22\x7d, \"ethics\": \x7b\"score\": 22\x7d\x7d" =
      Except.ok 22 ∧ (10 : ℚ) < 22 := by
  refine ⟨?_, by norm_num⟩
  have h := c6_overall_is_unclamped_mean
    "\x7b\"consistency\": \x7b\"score\": 22\x7d, \"quality\": \x7b\"score\": 22\x7d, \"originality\": \x7b\"score\": 22\x7d, \"feasibility\": \x7b\"score\": 22\x7d, \"completeness\": \x7b\"score\": 22\x7d, \"ethics\": \x7b\"score\": 22\x7d\x7d"
    [("consistency", Json.num (mkRat 22 1)), ("quality", Json.num (mkRat 22 1)),
     ("originality", Json.num (mkRat 22 1)), ("feasibility", Json.num (mkRat 22 1)),
     ("completeness", Json.num (mkRat 22 1)), ("ethics", Json.num (mkRat 22 1))]
    [mkRat 22 1, mkRat 22 1, mkRat 22 1, mkRat 22 1, mkRat 22 1, mkRat 22 1]
    rfl rfl (by simp)
  rw [h]
  norm_num [Rat.mkRat_eq_div]

/-! ### Claim theorem: criteria-score extraction (C10) -/

theorem jInsert_not_found :
    ∀ (l : List (String × Json)) (k : String) (v : Json),
      jFind l k = none → jInsert l k v = l ++ [(k, v)] := by
  intro l
  induction l with
  | nil => intro k v _; rfl
  | cons kv rest ih =>
    intro k v h
    obtain ⟨k1, v1⟩ := kv
    by_cases hk : k1 = k
    · rw [jFind_cons, if_pos hk] at h
      cases h
    · rw [jFind_cons, if_neg hk] at h
      rw [jInsert_cons, if_neg hk, ih k v h]
      rfl

theorem jFind_append_singleton_none :
    ∀ (l : List (String × Json)) (k' k : String) (v : Json),
      jFind l k' = none → k' ≠ k → jFind (l ++ [(k, v)]) k' = none := by
  intro l
  induction l with
  | nil =>
    intro k' k v _ hne
    have hk : ¬(k = k') := fun h => hne h.symm
    show jFind [(k, v)] k' = none
    rw [jFind_cons, if_neg hk]
    rfl
  | cons kv rest ih =>
    intro k' k v h hne
    obtain ⟨k1, v1⟩ := kv
    by_cases hk : k1 = k'
    · rw [jFind_cons, if_pos hk] at h
      cases h
    · rw [jFind_cons, if_neg hk] at h
      show jFind ((k1, v1) :: (rest ++ [(k, v)])) k' = none
      rw [jFind_cons, if_neg hk]
      exact ih k' k v h hne

theorem foldl_jInsert_eq_map (f : Json → Json) :
    ∀ (kvs acc : List (String × Json)),
      (∀ k ∈ kvs.map Prod.fst, jFind acc k = none) →
      (kvs.map Prod.fst).Nodup →
      kvs.foldl (fun a kv => jInsert a kv.1 (f kv.2)) acc =
        acc ++ kvs.map (fun kv => (kv.1, f kv.2)) := by
  intro kvs
  induction kvs with
  | nil =>
    intro acc _ _
    simp
  | cons kv rest ih =>
    intro acc hfresh hnd
    obtain ⟨k, v⟩ := kv
    simp only [List.map_cons, List.nodup_cons] at hnd
    have hk : jFind acc k = none := hfresh k (by simp)
    have h1 : jInsert acc k (f v) = acc ++ [(k, f v)] := jInsert_not_found acc k (f v) hk
    have h2 : ∀ k' ∈ rest.map Prod.fst, jFind (acc ++ [(k, f v)]) k' = none := by
      intro k' hk'
      refine jFind_append_singleton_none acc k' k (f v) (hfresh k' (by simp [hk'])) ?_
      intro he
      exact hnd.1 (he ▸ hk')
    calc ((k, v) :: rest).foldl (fun a kv => jInsert a kv.1 (f kv.2)) acc
        = rest.foldl (fun a kv => jInsert a kv.1 (f kv.2)) (jInsert acc k (f v)) := rfl
      _ = rest.foldl (fun a kv => jInsert a kv.1 (f kv.2)) (acc ++ [(k, f v)]) := by rw [h1]
      _ = (acc ++ [(k, f v)]) ++ rest.map (fun kv => (kv.1, f kv.2)) := ih _ h2 hnd.2
      _ = acc ++ ((k, v) :: rest).map (fun kv => (kv.1, f kv.2)) := by simp

/-- C10: in the Evaluator's criteria-scoring step, the score dict built
from a parsed (dict-shaped) response has exactly the keys of that
response, in order; each value that is not a dict containing a `score`
entry is replaced by the fixed default 7.0; an empty parsed response
yields an empty score dict, and the subsequent overall-score average then
raises `ZeroDivisionError` (it is only defined when at least one
criterion is present). -/
theorem c10_criteria_scores_shape (kvs : List (String × Json))
    (hnd : (kvs.map Prod.fst).Nodup) :
    evaluateCriteriaScores (Json.obj kvs) =
      Except.ok (kvs.map (fun kv => (kv.1, extractScore kv.2))) ∧
    (kvs.map (fun kv => (kv.1, extractScore kv.2))).map Prod.fst = kvs.map Prod.fst ∧
    (∀ v, jLookup v "score" = none → extractScore v = Json.num 7) ∧
    overallScore [] = Except.error PyErr.zeroDiv := by
  refine ⟨?_, by simp, ?_, rfl⟩
  · show Except.ok (kvs.foldl (fun acc kv => jInsert acc kv.1 (extractScore kv.2)) []) =
      Except.ok (kvs.map (fun kv => (kv.1, extractScore kv.2)))
    rw [foldl_jInsert_eq_map extractScore kvs [] (by intro k _; rfl) hnd]
    rfl
  · intro v hv
    cases v with
    | obj members =>
      simp only [jLookup] at hv
      simp [extractScore, hv]
    | null => rfl
    | bool b => rfl
    | num q => rfl
    | str s => rfl
    | arr elems => rfl

/-- Witness for C10: a parsed response with one well-formed criterion and
one malformed (non-dict) criterion. -/
theorem c10_criteria_scores_shape_witness :
    evaluateCriteriaScores (Json.obj [
      ("consistency", Json.obj [("score", Json.num 9), ("justification", Json.str "solid")]),
      ("quality", Json.str "excellent")]) =
      Except.ok [("consistency", Json.num 9), ("quality", Json.num 7)] ∧
    overallScore [] = Except.error PyErr.zeroDiv := by
  have h := c10_criteria_scores_shape [
    ("consistency", Json.obj [("score", Json.num 9), ("justification", Json.str "solid")]),
    ("quality", Json.str "excellent")] (by decide)
  exact ⟨h.1, h.2.2.2⟩
example : jsonLoads " [1, 2.5, \"a\"] " =
    some (Json.arr [Json.num (mkRat 1 1), Json.num (mkRat 5 2), Json.str "a"]) := rfl
example : jsonLoads "-1.25e2" = some (Json.num (mkRat (-125) 1)) := rfl
example : jsonLoads "\x7b\"a\": 1, \"a\": 2\x7d" =
    some (Json.obj [("a", Json.num (mkRat 2 1))]) := rfl
example : jsonLoads "\"a\\nb\\u00e9\"" = some (Json.str "a\nbé") := rfl
example : jsonLoads "01" = none := rfl
example : fastParseJson "Sure! Here\x27s the data:\n```json\n\x7b\"strengths\": [\"A\",\"B\",]\x7d\n```" =
    Json.obj [("strengths", Json.arr [Json.str "A", Json.str "B"])] := rfl
example : fastParseJson "no json here" =
    Json.obj [("raw_content", Json.str "no json here")] := rfl
example : fastParseJson "   " = Json.obj [("error", Json.str "Empty response")] := rfl
example : parseJsonResponse "plain prose" (Json.obj []) = Json.obj [] := rfl
example : parseJsonResponse "```json\n\x7b\"x\": true\x7d\n```" Json.null =
    Json.obj [("x", Json.bool true)] := rfl
example : jsonLoads "\x7b\"a\": [true, null],\x7d" = none := rfl
example : jsonLoads "hello" = none := rfl
